import Mathlib

/-!
Shallow embedding of the edvart report-section library (files
`edvart/utils.py`, `edvart/report_sections/bivariate_analysis.py`,
`edvart/report_sections/univariate_analysis.py`, `edvart/report_sections/umap.py`,
`edvart/report_sections/timeseries_analysis/autocorrelation.py`).

Conventions of the embedding:
- Python exceptions are modelled with `Except Err`; `Err` distinguishes
  `ValueError` from `KeyError` because several claims are about which
  exception is raised.
- A pandas `DataFrame` is modelled as a list of named columns.  The
  predicates computed by the (not included) module `edvart.data_types`
  (`is_numeric`, `is_categorical`, `is_boolean`, `infer_data_type`) are
  modelled as attributes of a column: the code under verification only
  ever consumes their results.
- A pandas `Series` of numbers is `List (Option ℚ)` (`none` = NaN/null);
  a series of arbitrary values is `List (Option String)`.
- Plotting calls are modelled by returning the data that reaches the
  plotting call (the resolved column lists, pairs, and so on).
-/

namespace Edvart

/-- Python exception kind: the sections raise `ValueError` for parameter
validation failures, while an indexing `df[col]` with a missing column
raises `KeyError`. -/
inductive Err where
  | valueError
  | keyError
deriving DecidableEq, Repr

/-- Modelled from the spec: `edvart.data_types.DataType` is not part of the
provided sources; the spec says the system "classifies each by semantic type
(numeric, categorical, boolean, datetime)".  `NONE` stands for any other
inference outcome. -/
inductive DataType where
  | NONE
  | NUMERIC
  | CATEGORICAL
  | BOOLEAN
  | DATE
deriving DecidableEq, Repr

/-- A dataframe column: its name, the results of the `edvart.data_types`
predicates on it, and its cell values (`none` is a null/NaN cell). -/
structure Column where
  name : String
  isNumericCol : Bool
  isCategoricalCol : Bool
  isBooleanCol : Bool
  dtype : DataType
  values : List (Option String)
deriving DecidableEq, Repr

/-- A dataframe: named columns in order, plus whether the index is an
ascending time index (consulted only by the `check_index_time_ascending`
decorator of the timeseries sections). -/
structure DataFrame where
  cols : List Column
  indexTimeAscending : Bool
deriving DecidableEq, Repr

/-- Column labels of the dataframe, in dataframe order (`df.columns`). -/
def DataFrame.names (df : DataFrame) : List String :=
  df.cols.map (fun c => c.name)

/-- Lookup `df[col]`; `none` when the label is absent. -/
def DataFrame.lookup (df : DataFrame) (n : String) : Option Column :=
  df.cols.find? (fun c => c.name = n)

/-- Lookup `df[col]`, raising `KeyError` when the label is absent. -/
def DataFrame.lookupE (df : DataFrame) (n : String) : Except Err Column :=
  match df.lookup n with
  | some c => .ok c
  | none => .error .keyError

/-- Value of `is_numeric(df[col])` as seen through a plain lookup
(`false` when the label is absent). -/
def DataFrame.isNumericName (df : DataFrame) (n : String) : Bool :=
  match df.lookup n with
  | some c => c.isNumericCol
  | none => false

/-- Names of the numeric columns of `df`, in dataframe order. -/
def DataFrame.numericNames (df : DataFrame) : List String :=
  (df.cols.filter (fun c => c.isNumericCol)).map (fun c => c.name)

/-- Number of occurrences of a value in a list (`pandas` counts). -/
def occ (v : String) : List String → Nat
  | [] => 0
  | w :: rest => (if w = v then 1 else 0) + occ v rest

/-- Null test `df[col].isnull().all()`: every cell of the column is null. -/
def Column.allNull (c : Column) : Bool :=
  c.values.all (fun v => v.isNone)

/-- Unique-value count `df[col].nunique()`: number of distinct non-null
values. -/
def Column.nunique (c : Column) : Nat :=
  (c.values.filterMap id).dedup.length

/-- Decidable equality of `Except` results, so that concrete runs can be
checked by `decide`. -/
instance {ε α : Type} [DecidableEq ε] [DecidableEq α] :
    DecidableEq (Except ε α) := fun a b =>
  match a, b with
  | .error e1, .error e2 =>
    if h : e1 = e2 then .isTrue (by rw [h])
    else .isFalse (fun hc => h (Except.error.inj hc))
  | .ok a1, .ok a2 =>
    if h : a1 = a2 then .isTrue (by rw [h])
    else .isFalse (fun hc => h (Except.ok.inj hc))
  | .error _, .ok _ => .isFalse (fun hc => Except.noConfusion hc)
  | .ok _, .error _ => .isFalse (fun hc => Except.noConfusion hc)

/-- Monadic map over `Except`, used to model Python loops/comprehensions in
which each iteration may raise. -/
def mapE {α β : Type} (f : α → Except Err β) : List α → Except Err (List β)
  | [] => .ok []
  | a :: l => do
    let b ← f a
    let bs ← mapE f l
    .ok (b :: bs)

/-- Monadic filter over `Except`, used to model Python `filter` with a
predicate whose evaluation may raise. -/
def filterE {α : Type} (p : α → Except Err Bool) : List α → Except Err (List α)
  | [] => .ok []
  | a :: l => do
    let b ← p a
    let rest ← filterE p l
    .ok (if b then a :: rest else rest)

/-! ## `edvart/utils.py`: statistic functions (claims C8, C9) -/

/-- Non-null values of a numeric series (`series.dropna()`; pandas statistics
skip NaN values). -/
def dropna (s : List (Option ℚ)) : List ℚ :=
  s.filterMap id

/-- Non-null values of the series, sorted ascending, as used by
`pandas.Series.quantile`. -/
def sortedVals (s : List (Option ℚ)) : List ℚ :=
  (dropna s).mergeSort (fun a b => decide (a ≤ b))

/-- Embedding of `pandas.Series.quantile(q)` with the default linear
interpolation: on the sorted non-null values `v` of length `m`, the result is
`v[i] + frac * (v[i+1] - v[i])` where `i = floor(q*(m-1))` and
`frac = q*(m-1) - i`.  `none` models the NaN returned on an all-null
series. -/
def quantile (s : List (Option ℚ)) (q : ℚ) : Option ℚ :=
  match sortedVals s with
  | [] => none
  | v0 :: rest =>
    let v := v0 :: rest
    let pos : ℚ := q * ((v.length : ℚ) - 1)
    let i : Nat := pos.floor.toNat
    let frac : ℚ := pos - (i : ℚ)
    let lo := v.getD i v0
    let hi := v.getD (i + 1) lo
    some (lo + frac * (hi - lo))

/-- Embedding of `utils.minimum` (`series.min()`; NaN on all-null series). -/
def minimum (s : List (Option ℚ)) : Option ℚ :=
  (dropna s).min?

/-- Embedding of `utils.maximum` (`series.max()`). -/
def maximum (s : List (Option ℚ)) : Option ℚ :=
  (dropna s).max?

/-- Embedding of `utils.quartile1` (`series.quantile(0.25)`). -/
def quartile1 (s : List (Option ℚ)) : Option ℚ :=
  quantile s (1/4)

/-- Embedding of `utils.quartile3` (`series.quantile(0.75)`). -/
def quartile3 (s : List (Option ℚ)) : Option ℚ :=
  quantile s (3/4)

/-- Embedding of `utils.iqr`: `series.quantile(0.75) - series.quantile(0.25)`
(NaN propagates through the subtraction, hence `Option.map₂`). -/
def iqr (s : List (Option ℚ)) : Option ℚ :=
  Option.map₂ (fun a b => a - b) (quantile s (3/4)) (quantile s (1/4))

/-- Embedding of `utils.value_range`: `series.max() - series.min()`. -/
def value_range (s : List (Option ℚ)) : Option ℚ :=
  Option.map₂ (fun a b => a - b) ((dropna s).max?) ((dropna s).min?)

/-- Distinct values of a list, first occurrence first (the index set of
`series.value_counts()`). -/
def distinctFirst : List String → List String
  | [] => []
  | v :: rest => v :: distinctFirst (rest.filter (fun w => !(w == v)))
termination_by l => l.length
decreasing_by
  simp only [List.length_cons]
  exact Nat.lt_succ_of_le (rest.length_filter_le _)

/-- Embedding of `series.value_counts()`: pairs `(value, count)` over the
distinct non-null values, sorted by count descending (stable, so ties stay in
first-occurrence order). -/
def valueCounts (s : List (Option String)) : List (String × Nat) :=
  let vals := s.filterMap id
  ((distinctFirst vals).map (fun v => (v, occ v vals))).mergeSort
    (fun p q => decide (q.2 ≤ p.2))

/-- Python dict insertion `d[k] = v`: overwrite an existing key, otherwise
append at the end (dicts preserve insertion order). -/
def dictUpsert (d : List (String × Nat)) (k : String) (v : Nat) :
    List (String × Nat) :=
  if d.any (fun p => p.1 == k) then
    d.map (fun p => if p.1 = k then (k, v) else p)
  else
    d ++ [(k, v)]

/-- Embedding of `utils.top_frequent_values`: the dict built from the top
`n_top` value counts plus the `"Other values count"` and `"Null"` entries;
the second pass turns each count `c` into the pair `(c, 100*c/len(series))`
(the code formats this pair into a string; the format is not modelled). -/
def top_frequent_values (s : List (Option String)) (nTop : Nat) :
    List (String × Nat × ℚ) :=
  let counts := valueCounts s
  let nanCount := s.countP (fun v => v.isNone)
  let others := ((counts.drop nTop).map Prod.snd).sum
  let base :=
    dictUpsert (dictUpsert (counts.take nTop) "Other values count" others)
      "Null" nanCount
  base.map (fun p => (p.1, p.2, 100 * (p.2 : ℚ) / (s.length : ℚ)))

/-! ## Column resolution (claims C4, C5, C7, C10) -/

/-- Value of `is_numeric(df[col])` as an expression that can raise
`KeyError` on a missing label. -/
def DataFrame.isNumericE (df : DataFrame) (n : String) : Except Err Bool := do
  let c ← df.lookupE n
  .ok c.isNumericCol

/-- Embedding of `CorrelationPlot._get_columns_x_y`
(`bivariate_analysis.py:348-384`): validate that both or neither of
`columns_x`, `columns_y` is given; default both to `columns` (itself
defaulting to all dataframe columns); keep only numeric columns. -/
def getColumnsXY (df : DataFrame) (columns columns_x columns_y :
    Option (List String)) : Except Err (List String × List String) :=
  if columns_x.isNone ≠ columns_y.isNone then
    .error .valueError
  else
    let (cx, cy) :=
      match columns_x, columns_y with
      | some xs, some ys => (xs, ys)
      | _, _ =>
        let cols := columns.getD df.names
        (cols, cols)
    do
      let fx ← filterE df.isNumericE cx
      let fy ← filterE df.isNumericE cy
      .ok (fx, fy)

/-- Embedding of `CorrelationPlot.plot_correlations`
(`bivariate_analysis.py:465-503`): for each of the three default
correlations, `plot_correlation` resolves the columns and plots the heatmap
of `corr.loc[columns_x, columns_y]`; the output records, per correlation
name, the resolved axes of the plotted heatmap. -/
def plotCorrelations (df : DataFrame) (columns columns_x columns_y :
    Option (List String)) : Except Err (List (String × List String × List String)) :=
  mapE
    (fun nm => do
      let (cx, cy) ← getColumnsXY df columns columns_x columns_y
      .ok (nm, cx, cy))
    ["pearson", "spearman", "kendall"]

/-- Pairplot column predicate (`bivariate_analysis.py:671-672`):
`not is_categorical(df[col]) and not is_boolean(df[col])`. -/
def pairplotInclude (df : DataFrame) (n : String) : Except Err Bool := do
  let c ← df.lookupE n
  .ok (!c.isCategoricalCol && !c.isBooleanCol)

/-- Embedding of `PairPlot.plot_pairplot` (`bivariate_analysis.py:632-685`):
validate `columns_x`/`columns_y`, default them to `columns` (defaulting to
the non-categorical, non-boolean dataframe columns), filter categorical and
boolean columns out unless `allow_categorical`, then call
`utils.pair_plot(df, columns_x, columns_y, color_col)`; the output records
the arguments of that seaborn call. -/
def plotPairplot (df : DataFrame) (columns columns_x columns_y :
    Option (List String)) (allowCategorical : Bool) (color_col : Option String) :
    Except Err (List String × List String × Option String) :=
  if columns_x.isNone ≠ columns_y.isNone then
    .error .valueError
  else do
    let (cx, cy) ←
      match columns_x, columns_y with
      | some xs, some ys => pure (xs, ys)
      | _, _ => do
        let cols ←
          match columns with
          | some cs => pure cs
          | none => filterE (pairplotInclude df) df.names
        pure (cols, cols)
    if allowCategorical then
      .ok (cx, cy, color_col)
    else do
      let fx ← filterE (pairplotInclude df) cx
      let fy ← filterE (pairplotInclude df) cy
      .ok (fx, fy, color_col)

/-- Contingency-table column criterion on a resolved column
(`bivariate_analysis.py:840-843`):
`(table_threshold < 0 or nunique <= table_threshold) and not all-null`. -/
def includeColumnB (tableThreshold : Int) (c : Column) : Bool :=
  (decide (tableThreshold < 0) || decide ((c.nunique : Int) ≤ tableThreshold))
    && !c.allNull

/-- Contingency-table column criterion as an expression over the dataframe,
which can raise `KeyError` on a missing label. -/
def includeColumnE (df : DataFrame) (tableThreshold : Int) (n : String) :
    Except Err Bool := do
  let c ← df.lookupE n
  .ok (includeColumnB tableThreshold c)

/-- Contingency-table pair criterion (`bivariate_analysis.py:845-848`):
reject equal pairs, otherwise require both columns pass `include_column`
(short-circuit `and`, as in Python). -/
def includeColumnPairE (df : DataFrame) (tableThreshold : Int)
    (p : String × String) : Except Err Bool :=
  if p.1 = p.2 then
    .ok false
  else do
    let b1 ← includeColumnE df tableThreshold p.1
    if b1 then includeColumnE df tableThreshold p.2 else .ok false

/-- Candidate pairs of `ContingencyTable.contingency_tables`
(`bivariate_analysis.py:852-858`): the given pairs, or the cartesian
product of the column lists, the lists defaulting to the dataframe columns
with more than one unique value. -/
def contingencyCandidatePairs (df : DataFrame) (columns columns_x columns_y :
    Option (List String)) (columns_pairs : Option (List (String × String))) :
    List (String × String) :=
  match columns_pairs with
  | some ps => ps
  | none =>
    let (cx, cy) : List String × List String :=
      match columns_x, columns_y with
      | some xs, some ys => (xs, ys)
      | _, _ =>
        let cols := columns.getD
          ((df.cols.filter (fun c : Column => 1 < c.nunique)).map
            (fun c : Column => c.name))
        (cols, cols)
    cx.flatMap (fun a => cy.map (fun b => (a, b)))

/-- Embedding of `ContingencyTable.contingency_tables`
(`bivariate_analysis.py:804-862`): validate `columns_x`/`columns_y`, build
the candidate pairs, filter them by `include_column_pair`, and display a
contingency table per remaining pair; the output is the list of plotted
pairs. -/
def contingencyTables (df : DataFrame) (columns columns_x columns_y :
    Option (List String)) (columns_pairs : Option (List (String × String)))
    (tableThreshold : Int) : Except Err (List (String × String)) :=
  if columns_x.isNone ≠ columns_y.isNone then
    .error .valueError
  else
    filterE (includeColumnPairE df tableThreshold)
      (contingencyCandidatePairs df columns columns_x columns_y columns_pairs)

/-! ## `edvart/report_sections/umap.py` and
`timeseries_analysis/autocorrelation.py` (claim C7) -/

/-- Column validation loop shared verbatim by `UMAP.__init__`
(`umap.py:76-80`), `UMAP.plot_umap` (`umap.py:146-150`) and
`Autocorrelation.plot_acf` (`autocorrelation.py:108-110`):
`for col in columns: if not is_numeric(df[col]): raise ValueError(...)`. -/
def validateNumericColumns (df : DataFrame) : List String → Except Err Unit
  | [] => .ok ()
  | c :: rest => do
    let b ← df.isNumericE c
    if b then validateNumericColumns df rest else .error .valueError

/-- Embedding of the column handling of `UMAP.__init__` (`umap.py:66-86`):
default `columns` to the numeric columns, collapsing back to `None` when
every dataframe column is numeric; otherwise validate that the given columns
are numeric.  Returns the stored `self.columns`. -/
def umapInit (df : DataFrame) (columns : Option (List String)) :
    Except Err (Option (List String)) :=
  match columns with
  | none =>
    let cs := df.numericNames
    .ok (if cs.length = df.cols.length then none else some cs)
  | some cs => do
    validateNumericColumns df cs
    .ok (some cs)

/-- Resolution of a stored `self.columns` at use time: `None` means all
numeric columns (this is what `plot_umap` does when called with
`columns=None`). -/
def resolveStoredColumns (df : DataFrame) : Option (List String) → List String
  | none => df.numericNames
  | some cs => cs

/-- Embedding of the column handling of `UMAP.plot_umap`
(`umap.py:143-150`): default `columns` to the numeric dataframe columns,
otherwise validate that the given columns are numeric; the output is the
column list the embedding is computed on. -/
def plotUmap (df : DataFrame) (columns : Option (List String)) :
    Except Err (List String) :=
  match columns with
  | none => .ok df.numericNames
  | some cs => do
    validateNumericColumns df cs
    .ok cs

/-- Embedding of `Autocorrelation.plot_acf` (`autocorrelation.py:74-122`).
The decorator `check_index_time_ascending` is not part of the provided
sources.  Modelled from the spec: the docstring of
`Autocorrelation.autocorrelation` (`autocorrelation.py:65-68`) documents
"Raises ValueError: If the input data is not indexed by time in ascending
order", so the decorator raises `ValueError` whenever
`df.indexTimeAscending` is false.  The body then resolves/validates
`columns` exactly like `plot_umap`; the output is the list of columns
plotted. -/
def plotAcf (df : DataFrame) (columns : Option (List String)) :
    Except Err (List String) :=
  if !df.indexTimeAscending then
    .error .valueError
  else
    match columns with
    | none => .ok df.numericNames
    | some cs => do
      validateNumericColumns df cs
      .ok cs

/-! ## `edvart/report_sections/univariate_analysis.py` (claims C2, C3, C6) -/

/-- What the univariate analysis produces for one column
(`univariate_analysis.py:274-287`): a NULL heading and note only, a
most-frequent-values table plus a bar plot, or the two statistics tables
plus a histogram. -/
inductive ColAction where
  | nullNote
  | freqAndBar
  | statsAndHist
deriving DecidableEq, Repr

/-- Per-column dispatch of `UnivariateAnalysis.univariate_analysis` and
`UnivariateAnalysis.show`: all-null columns get only the NULL note; columns
inferred `CATEGORICAL` or `BOOLEAN` get `top_most_frequent` + `bar_plot`;
every other column gets `numeric_statistics` + `histogram`. -/
def univariateColAction (c : Column) : ColAction :=
  if c.allNull then
    .nullNote
  else if c.dtype = .CATEGORICAL ∨ c.dtype = .BOOLEAN then
    .freqAndBar
  else
    .statsAndHist

/-- Column selection `df[columns]` (`df = df[columns]` when `columns` is not
`None`): the named columns in the order given, `KeyError` on a missing
label. -/
def selectCols (df : DataFrame) : Option (List String) → Except Err DataFrame
  | none => .ok df
  | some cs => do
    let cols ← mapE df.lookupE cs
    .ok ⟨cols, df.indexTimeAscending⟩

/-- Embedding of the static `UnivariateAnalysis.univariate_analysis`
(`univariate_analysis.py:260-287`): select `columns` if given, then produce
one `ColAction` per remaining column. -/
def univariate_analysis (df : DataFrame) (columns : Option (List String)) :
    Except Err (List (String × ColAction)) := do
  let d ← selectCols df columns
  .ok (d.cols.map (fun c => (c.name, univariateColAction c)))

/-- Stored state of a `UnivariateAnalysis` section (`__init__`,
`univariate_analysis.py:47-49`). -/
structure UniState where
  df : DataFrame
  verbosity : Nat
  columns : Option (List String)
deriving DecidableEq, Repr

/-- Embedding of `UnivariateAnalysis.show` (`univariate_analysis.py:415-441`):
select the stored `columns` from the passed dataframe, then run the same
per-column dispatch as `univariate_analysis`. -/
def univariateShow (st : UniState) (df : DataFrame) :
    Except Err (List (String × ColAction)) := do
  let d ← selectCols df st.columns
  .ok (d.cols.map (fun c => (c.name, univariateColAction c)))

/-! ## Structured model of generated notebook cells (claims C2, C3)

The exported code text is modelled structurally: `get_code(f)` (whose string
contents come from the not-included `code_string_formatting` module) is
modelled as the item `defn "f"`, and each generated function call is
modelled as a call item carrying the arguments that the generated source
text passes.  `PairPlot.add_cells` is additionally modelled at string level
for claim C1, because that claim is about parenthesis balance. -/

/-- The three bivariate-analysis subsections
(`BivariateAnalysis.BivariateAnalysisSubsection`). -/
inductive Subsec where
  | CorrelationPlot
  | PairPlot
  | ContingencyTable
deriving DecidableEq, Repr

/-- Arguments rendered into the verbosity-0 `bivariate_analysis(...)` call
(`bivariate_analysis.py:244-262`); a `none` field is an argument that is
not present in the generated call. -/
structure BivCallArgs where
  subsections : Option (List Subsec)
  columns : Option (List String)
  columns_x : Option (List String)
  columns_y : Option (List String)
  columns_pairs : Option (List (String × String))
  color_col : Option String
deriving DecidableEq, Repr

/-- Arguments rendered into a generated `plot_correlations(...)` call
(`bivariate_analysis.py:544-551`). -/
structure CorrCallArgs where
  columns : Option (List String)
  columns_x : Option (List String)
  columns_y : Option (List String)
deriving DecidableEq, Repr

/-- Arguments rendered into a generated `plot_pairplot(...)` call
(`bivariate_analysis.py:722-730`). -/
structure PairCallArgs where
  columns : Option (List String)
  columns_x : Option (List String)
  columns_y : Option (List String)
  color_col : Option String
deriving DecidableEq, Repr

/-- Arguments rendered into a generated `contingency_tables(...)` call
(`bivariate_analysis.py:980-988`). -/
structure ContCallArgs where
  columns : Option (List String)
  columns_x : Option (List String)
  columns_y : Option (List String)
  columns_pairs : Option (List (String × String))
deriving DecidableEq, Repr

/-- One item of a generated code cell: an inlined function definition
(`get_code(...)`, identified by function name) or a generated call. -/
inductive CodeItem where
  | defn (name : String)
  | callBivariate (args : BivCallArgs)
  | callUnivariate (columns : Option (List String))
  | callCorrelations (args : CorrCallArgs)
  | callPairplot (args : PairCallArgs)
  | callContingency (args : ContCallArgs)
  | callTopMostFrequent (col : String)
  | callBarPlot (col : String)
  | callNumericStatistics (col : String) (explicitStats : Bool)
  | callHistogram (col : String)
  | callAcf (columns : Option (List String))
deriving DecidableEq, Repr

/-- A generated notebook cell: markdown, or code made of items. -/
inductive Cell where
  | markdown (txt : String)
  | code (items : List CodeItem)
deriving DecidableEq, Repr

/-- Whether a code item is an inlined function definition. -/
def CodeItem.isDefn : CodeItem → Bool
  | .defn _ => true
  | _ => false

/-- Items of a cell (empty for markdown cells). -/
def Cell.items : Cell → List CodeItem
  | .markdown _ => []
  | .code its => its

/-- All generated calls of a cell list, in order. -/
def callsOf (cells : List Cell) : List CodeItem :=
  (cells.flatMap Cell.items).filter (fun it => !it.isDefn)

/-- All inlined definitions of a cell list, in order. -/
def defnsOf (cells : List Cell) : List CodeItem :=
  (cells.flatMap Cell.items).filter (fun it => it.isDefn)

/-- Rendering of the inferred-type heading text (markdown content only). -/
def dtypeName : DataType → String
  | .NONE => "None"
  | .NUMERIC => "Numeric"
  | .CATEGORICAL => "Categorical"
  | .BOOLEAN => "Boolean"
  | .DATE => "Date"

/-- Cells generated for one column by the verbosity 1/2 loop of
`UnivariateAnalysis.add_cells` (`univariate_analysis.py:381-413`): all-null
columns produce no cells (the code only calls `display`, which renders in
the calling notebook, not in the generated one); other columns produce a
markdown heading and one code cell; at verbosity 2 the numeric call passes
the default statistics dictionaries explicitly. -/
def uniColCells (verbosity : Nat) (c : Column) : List Cell :=
  if c.allNull then
    []
  else
    [Cell.markdown ("## *" ++ c.name ++ " - " ++ dtypeName c.dtype ++ "*"),
     Cell.code
       (if c.dtype = .CATEGORICAL ∨ c.dtype = .BOOLEAN then
         [.callTopMostFrequent c.name, .callBarPlot c.name]
       else if verbosity = 1 then
         [.callNumericStatistics c.name false, .callHistogram c.name]
       else
         [.callNumericStatistics c.name true, .callHistogram c.name])]

/-- Embedding of `UnivariateAnalysis.add_cells`
(`univariate_analysis.py:322-413`): select the stored columns (this can
raise `KeyError`), emit the section header, at verbosity 2 emit the three
definition cells, then either the single `univariate_analysis(...)` call
(verbosity 0) or the per-column cells. -/
def univariateAddCells (st : UniState) : Except Err (List Cell) := do
  let d ← selectCols st.df st.columns
  let header := Cell.markdown "# Univariate Analysis"
  let defCells : List Cell :=
    if st.verbosity = 2 then
      [Cell.code [.defn "default_descriptive_statistics",
                  .defn "default_quantile_statistics"],
       Cell.code [.defn "top_most_frequent", .defn "bar_plot",
                  .defn "numeric_statistics", .defn "histogram"],
       Cell.code [.defn "format_number", .defn "dict_to_html",
                  .defn "add_html_heading", .defn "subcells_html"]]
    else []
  if st.verbosity = 0 then
    .ok (header :: defCells ++ [Cell.code [.callUnivariate st.columns]])
  else
    .ok (header :: defCells ++ d.cols.flatMap (uniColCells st.verbosity))

/-! ## `edvart/report_sections/bivariate_analysis.py`: section states
(claims C1, C2, C3, C4) -/

/-- Stored state of a `CorrelationPlot` subsection
(`bivariate_analysis.py:331-342`); the constructor validation is part of
`bivariateInit` / `corrInit`. -/
structure CorrState where
  verbosity : Nat
  columns : Option (List String)
  columns_x : Option (List String)
  columns_y : Option (List String)
deriving DecidableEq, Repr

/-- Stored state of a `PairPlot` subsection
(`bivariate_analysis.py:613-626`). -/
structure PairState where
  verbosity : Nat
  columns : Option (List String)
  columns_x : Option (List String)
  columns_y : Option (List String)
  color_col : Option String
deriving DecidableEq, Repr

/-- Stored state of a `ContingencyTable` subsection
(`bivariate_analysis.py:787-798`). -/
structure ContState where
  verbosity : Nat
  columns : Option (List String)
  columns_x : Option (List String)
  columns_y : Option (List String)
  columns_pairs : Option (List (String × String))
deriving DecidableEq, Repr

/-- A constructed subsection implementation
(`enum_to_implementation`, `bivariate_analysis.py:146-160`). -/
inductive SubImpl where
  | corr (st : CorrState)
  | pair (st : PairState)
  | cont (st : ContState)
deriving DecidableEq, Repr

/-- Verbosity stored in a subsection implementation. -/
def SubImpl.verbosity : SubImpl → Nat
  | .corr st => st.verbosity
  | .pair st => st.verbosity
  | .cont st => st.verbosity

/-- Constructor arguments of `BivariateAnalysis.__init__`
(`bivariate_analysis.py:94-106`). -/
structure BivArgs where
  subsections : Option (List Subsec)
  verbosity : Nat
  columns : Option (List String)
  columns_x : Option (List String)
  columns_y : Option (List String)
  columns_pairs : Option (List (String × String))
  verbosity_correlations : Option Nat
  verbosity_pairplot : Option Nat
  verbosity_contingency_table : Option Nat
  color_col : Option String
deriving DecidableEq, Repr

/-- Stored state of a `BivariateAnalysis` section after `__init__`. -/
structure BivState where
  verbosity : Nat
  columns : Option (List String)
  columns_x : Option (List String)
  columns_y : Option (List String)
  columns_pairs : Option (List (String × String))
  color_col : Option String
  subsections_0 : Option (List Subsec)
  subsections : List SubImpl
deriving DecidableEq, Repr

/-- The `enum_to_implementation` map of `BivariateAnalysis.__init__`
(`bivariate_analysis.py:146-162`) applied to the subsection list:
correlation and pairplot receive the pairs-free `columns_x`/`columns_y`,
the contingency table receives the original ones plus `columns_pairs`. -/
def mkImpls (subsAll : List Subsec) (columns xnp ynp columns_x columns_y :
    Option (List String)) (columns_pairs : Option (List (String × String)))
    (color_col : Option String) (vCorr vPair vCont : Nat) : List SubImpl :=
  subsAll.map
    (fun s =>
      match s with
      | .CorrelationPlot => .corr ⟨vCorr, columns, xnp, ynp⟩
      | .PairPlot => .pair ⟨vPair, columns, xnp, ynp, color_col⟩
      | .ContingencyTable =>
        .cont ⟨vCont, columns, columns_x, columns_y, columns_pairs⟩)

/-- Pairs-free `columns_x`/`columns_y` preparation of
`BivariateAnalysis.__init__` (`bivariate_analysis.py:138-145`): when
`columns_pairs` is the only columns parameter specified, its first/second
components become `columns_x`/`columns_y` for the subsections that do not
take pairs. -/
def noPairsXY (columns columns_x columns_y : Option (List String))
    (columns_pairs : Option (List (String × String))) :
    Option (List String) × Option (List String) :=
  match columns, columns_x, columns_pairs with
  | none, none, some ps => (some (ps.map Prod.fst), some (ps.map Prod.snd))
  | _, _, _ => (columns_x, columns_y)

/-- Embedding of `BivariateAnalysis.__init__`
(`bivariate_analysis.py:94-168`): default the subsection verbosities to the
section verbosity, compute `subsections_0`, validate that both or neither
of `columns_x`/`columns_y` is given, derive the pairs-free column lists
when only `columns_pairs` is given, and build the subsection
implementations. -/
def bivariateInit (a : BivArgs) : Except Err BivState :=
  let vCorr := a.verbosity_correlations.getD a.verbosity
  let vPair := a.verbosity_pairplot.getD a.verbosity
  let vCont := a.verbosity_contingency_table.getD a.verbosity
  let verbOf : Subsec → Nat := fun s =>
    match s with
    | .CorrelationPlot => vCorr
    | .PairPlot => vPair
    | .ContingencyTable => vCont
  let subsAll := a.subsections.getD
    [.CorrelationPlot, .PairPlot, .ContingencyTable]
  let subs0 := subsAll.filter (fun s => verbOf s = 0)
  let subs0? : Option (List Subsec) :=
    if subs0.length = subsAll.length ∧ a.subsections = none then none
    else some subs0
  if a.columns_x.isNone ≠ a.columns_y.isNone then
    .error .valueError
  else
    let (xnp, ynp) :=
      noPairsXY a.columns a.columns_x a.columns_y a.columns_pairs
    .ok
      { verbosity := a.verbosity
        columns := a.columns
        columns_x := a.columns_x
        columns_y := a.columns_y
        columns_pairs := a.columns_pairs
        color_col := a.color_col
        subsections_0 := subs0?
        subsections :=
          mkImpls subsAll a.columns xnp ynp a.columns_x a.columns_y
            a.columns_pairs a.color_col vCorr vPair vCont }

/-- Arguments of the verbosity-0 `bivariate_analysis(...)` call generated by
`BivariateAnalysis.add_cells` (`bivariate_analysis.py:244-262`):
`subsections` when `subsections_0` is stored, `columns_x`/`columns_y` when
`columns_x` is stored, otherwise `columns` when stored, then
`columns_pairs` and `color_col` when stored. -/
def bivariateCellArgs (st : BivState) : BivCallArgs :=
  { subsections := st.subsections_0
    columns := if st.columns_x.isSome then none else st.columns
    columns_x := st.columns_x
    columns_y := if st.columns_x.isSome then st.columns_y else none
    columns_pairs := st.columns_pairs
    color_col := st.color_col }

/-- Arguments of the `plot_correlations(...)` call generated by
`CorrelationPlot.add_cells` (`bivariate_analysis.py:544-551`). -/
def corrCellArgs (st : CorrState) : CorrCallArgs :=
  if st.columns_x.isSome then
    ⟨none, st.columns_x, st.columns_y⟩
  else
    ⟨st.columns, none, none⟩

/-- Arguments of the `plot_pairplot(...)` call generated by
`PairPlot.add_cells` (`bivariate_analysis.py:722-730`), as intended; the
actual generated string is modelled separately for claim C1 because the
`columns` branch of the source emits a stray closing parenthesis. -/
def pairCellArgs (st : PairState) : PairCallArgs :=
  if st.columns_x.isSome then
    ⟨none, st.columns_x, st.columns_y, st.color_col⟩
  else
    ⟨st.columns, none, none, st.color_col⟩

/-- Arguments of the `contingency_tables(...)` call generated by
`ContingencyTable.add_cells` (`bivariate_analysis.py:980-988`). -/
def contCellArgs (st : ContState) : ContCallArgs :=
  if st.columns_pairs.isSome then
    ⟨none, none, none, st.columns_pairs⟩
  else if st.columns_x.isSome then
    ⟨none, st.columns_x, st.columns_y, none⟩
  else
    ⟨st.columns, none, none, none⟩

/-- Cells generated by one subsection's `add_cells`
(`bivariate_analysis.py:533-568`, `711-737`, `969-1001`): a markdown
header and one code cell; at verbosity 2 the code cell is the inlined
definitions followed by the same call. -/
def subAddCells : SubImpl → List Cell
  | .corr st =>
    [Cell.markdown "## Correlation Plot",
     Cell.code
       (if st.verbosity ≤ 1 then [.callCorrelations (corrCellArgs st)]
       else
         [.defn "default_correlations", .defn "_get_columns_x_y",
          .defn "plot_correlation", .defn "plot_correlations",
          .callCorrelations (corrCellArgs st)])]
  | .pair st =>
    [Cell.markdown "## Pairplot",
     Cell.code
       (if st.verbosity ≤ 1 then [.callPairplot (pairCellArgs st)]
       else [.defn "plot_pairplot", .callPairplot (pairCellArgs st)])]
  | .cont st =>
    [Cell.markdown "## Contingency table",
     Cell.code
       (if st.verbosity ≤ 1 then [.callContingency (contCellArgs st)]
       else
         [.defn "contingency_tables", .defn "contingency_table",
          .callContingency (contCellArgs st)])]

/-- Embedding of `BivariateAnalysis.add_cells`
(`bivariate_analysis.py:232-268`): at verbosity 0 the section header, one
code cell with the aggregate call, then `add_cells` of every subsection
whose verbosity is positive.  The non-zero branch delegates to
`ReportSection.add_cells`, which is not part of the provided sources;
modelled from the spec ("per-column parameterized calls"): each
subsection's `add_cells` in order. -/
def bivariateAddCells (st : BivState) : List Cell :=
  Cell.markdown "# Bivariate analysis" ::
    (if st.verbosity = 0 then
      Cell.code [.callBivariate (bivariateCellArgs st)] ::
        (st.subsections.filter (fun s => 0 < s.verbosity)).flatMap subAddCells
    else
      st.subsections.flatMap subAddCells)

/-- Output of one subsection's `show` (the data reaching the plotting
calls). -/
inductive SubOutput where
  | corr (plots : List (String × List String × List String))
  | pair (args : List String × List String × Option String)
  | cont (pairs : List (String × String))
deriving DecidableEq, Repr

/-- Embedding of the `show` methods of the three subsections
(`bivariate_analysis.py:570-581`, `739-754`, `1003-1018`): each calls its
static plotting function on the stored parameters (`allow_categorical`
defaults to false, `table_threshold` to 30). -/
def subShow (df : DataFrame) : SubImpl → Except Err SubOutput
  | .corr st => do
    let r ← plotCorrelations df st.columns st.columns_x st.columns_y
    .ok (.corr r)
  | .pair st => do
    let r ← plotPairplot df st.columns st.columns_x st.columns_y false
      st.color_col
    .ok (.pair r)
  | .cont st => do
    let r ← contingencyTables df st.columns st.columns_x st.columns_y
      st.columns_pairs 30
    .ok (.cont r)

/-- Embedding of `BivariateAnalysis.show`
(`bivariate_analysis.py:292-301`): `ReportSection.show` is not part of the
provided sources; modelled from the spec and from the identical loop in the
static `bivariate_analysis` (`bivariate_analysis.py:229-230`): each
subsection's `show` in order. -/
def bivariateShow (st : BivState) (df : DataFrame) :
    Except Err (List SubOutput) :=
  mapE (subShow df) st.subsections

/-- Embedding of the static `BivariateAnalysis.bivariate_analysis`
(`bivariate_analysis.py:174-230`): construct a `BivariateAnalysis` at
verbosity 0 from the call arguments and run each subsection's `show`. -/
def bivariate_analysis (df : DataFrame) (a : BivCallArgs) :
    Except Err (List SubOutput) := do
  let st ← bivariateInit
    { subsections := a.subsections
      verbosity := 0
      columns := a.columns
      columns_x := a.columns_x
      columns_y := a.columns_y
      columns_pairs := a.columns_pairs
      verbosity_correlations := none
      verbosity_pairplot := none
      verbosity_contingency_table := none
      color_col := a.color_col }
  mapE (subShow df) st.subsections

/-! ## String-level model of `PairPlot.add_cells` (claim C1) -/

/-- Python `repr` of a string (single quotes, as rendered into f-strings). -/
def pyStr (s : String) : String :=
  "\x27" ++ s ++ "\x27"

/-- Python `repr` of a list of strings, as rendered by an f-string:
`['a', 'b']`. -/
def pyStrList (xs : List String) : String :=
  "[" ++ String.intercalate ", " (xs.map pyStr) ++ "]"

/-- Python `repr` of an optional list (`None` when absent). -/
def pyOptStrList : Option (List String) → String
  | none => "None"
  | some xs => pyStrList xs

/-- The `default_call` string built by `PairPlot.add_cells`
(`bivariate_analysis.py:722-730`), reproduced character by character: note
that the `columns` branch of the source appends `", columns={...})"` with a
closing parenthesis, and a final `")"` is appended unconditionally. -/
def pairplotDefaultCall (st : PairState) : String :=
  let call := "plot_pairplot(df=df"
  let call :=
    match st.columns_x with
    | some xs =>
      call ++ ", columns_x=" ++ pyStrList xs ++ ", columns_y="
        ++ pyOptStrList st.columns_y
    | none =>
      match st.columns with
      | some cs => call ++ ", columns=" ++ pyStrList cs ++ ")"
      | none => call
  let call :=
    match st.color_col with
    | some cc => call ++ ", color_col=" ++ pyStr cc
    | none => call
  call ++ ")"

/-- Parenthesis scan: `true` when every prefix has at least as many `(` as
`)` and the whole string is balanced. -/
def parenScan : List Char → Int → Bool
  | [], depth => depth = 0
  | ch :: rest, depth =>
    let d : Int :=
      if ch = '(' then depth + 1 else if ch = ')' then depth - 1 else depth
    if d < 0 then false else parenScan rest d

/-- Whether the parentheses of a string are balanced (a necessary condition
for the generated cell to be syntactically valid Python). -/
def balancedParens (s : String) : Bool :=
  parenScan s.data 0

/-- The textual difference between the verbosity-1 and verbosity-2
per-column numeric calls of `UnivariateAnalysis.add_cells`
(`univariate_analysis.py:396-411`): the verbosity-2 call passes the default
statistics dictionaries explicitly. -/
def promoteStats : CodeItem → CodeItem
  | .callNumericStatistics c _ => .callNumericStatistics c true
  | it => it

/-! ## Helper lemmas -/

lemma lookupE_ne_valueError (df : DataFrame) (n : String) :
    df.lookupE n ≠ .error .valueError := by
  unfold DataFrame.lookupE
  cases df.lookup n <;> simp

lemma isNumericE_ne_valueError (df : DataFrame) (n : String) :
    df.isNumericE n ≠ .error .valueError := by
  unfold DataFrame.isNumericE DataFrame.lookupE
  cases df.lookup n <;> simp [Bind.bind, Except.bind]

lemma bindE_ne_valueError {α β : Type} (e : Except Err α)
    (f : α → Except Err β) (he : e ≠ .error .valueError)
    (hf : ∀ a, f a ≠ .error .valueError) :
    (e >>= f) ≠ .error .valueError := by
  cases e with
  | error err =>
    cases err
    · exact absurd rfl he
    · simp [Bind.bind, Except.bind]
  | ok a => simpa [Bind.bind, Except.bind] using hf a

lemma filterE_ne_valueError {α : Type} (p : α → Except Err Bool)
    (hp : ∀ a, p a ≠ .error .valueError) (l : List α) :
    filterE p l ≠ .error .valueError := by
  induction l with
  | nil => simp [filterE]
  | cons a t ih =>
    show (do
      let b ← p a
      let rest ← filterE p t
      .ok (if b then a :: rest else rest)) ≠ .error .valueError
    exact bindE_ne_valueError _ _ (hp a)
      (fun b => bindE_ne_valueError _ _ ih (fun rest => by simp))

lemma includeColumnE_ne_valueError (df : DataFrame) (t : Int) (n : String) :
    includeColumnE df t n ≠ .error .valueError := by
  unfold includeColumnE DataFrame.lookupE
  cases df.lookup n <;> simp [Bind.bind, Except.bind]

lemma includeColumnPairE_ne_valueError (df : DataFrame) (t : Int)
    (p : String × String) :
    includeColumnPairE df t p ≠ .error .valueError := by
  unfold includeColumnPairE
  by_cases h : p.1 = p.2
  · simp [h]
  · simp only [h, if_false]
    refine bindE_ne_valueError _ _ (includeColumnE_ne_valueError df t p.1)
      (fun b => ?_)
    by_cases hb : b = true
    · simpa [hb] using includeColumnE_ne_valueError df t p.2
    · simp at hb
      simp [hb]

/-! ## Claim C8 -/

/-- Claim C8: for every series, `iqr(series)` equals
`quartile3(series) - quartile1(series)` and `value_range(series)` equals
`maximum(series) - minimum(series)` (the derived statistics equal the
differences of the corresponding base statistics on the same series, with
NaN propagating through the subtraction). -/
theorem c8_derived_stats_are_differences :
    ∀ s : List (Option ℚ),
      iqr s = Option.map₂ (fun a b => a - b) (quartile3 s) (quartile1 s)
      ∧ value_range s
          = Option.map₂ (fun a b => a - b) (maximum s) (minimum s) :=
  fun _ => ⟨rfl, rfl⟩

/-! ## Claim C1 -/

/-- Claim C1 (code bug evidence): for a `PairPlot` constructed with
`columns` specified and `columns_x`/`columns_y` unspecified, the code cell
emitted by `PairPlot.add_cells` is NOT syntactically valid Python: the
`columns` branch (`bivariate_analysis.py:727`) appends a stray closing
parenthesis, so the emitted call has unbalanced parentheses; with a
`color_col` the stray parenthesis even cuts the call before the
`color_col` argument. -/
theorem c1_pairplot_cell_unbalanced :
    pairplotDefaultCall ⟨1, some ["a"], none, none, none⟩
        = "plot_pairplot(df=df, columns=[\x27a\x27]))"
    ∧ balancedParens "plot_pairplot(df=df, columns=[\x27a\x27]))" = false
    ∧ pairplotDefaultCall ⟨1, some ["a"], none, none, some "hue"⟩
        = "plot_pairplot(df=df, columns=[\x27a\x27]), color_col=\x27hue\x27)" := by
  refine ⟨rfl, by decide, rfl⟩

/-! ## Claim C4 -/

/-- Claim C4: `BivariateAnalysis.__init__`, `CorrelationPlot._get_columns_x_y`
and `ContingencyTable.contingency_tables` raise `ValueError` exactly when
one of `columns_x`, `columns_y` is specified and the other is not; when both
or neither are specified, `__init__` constructs the section state and the
other two raise no `ValueError` (a missing label can still raise
`KeyError`, which is a different exception). -/
theorem c4_xor_validation_iff :
    (∀ a : BivArgs,
      (bivariateInit a = .error .valueError
        ↔ a.columns_x.isNone ≠ a.columns_y.isNone)
      ∧ ((∃ st, bivariateInit a = .ok st)
        ↔ a.columns_x.isNone = a.columns_y.isNone))
    ∧ (∀ (df : DataFrame) (columns columns_x columns_y : Option (List String)),
      getColumnsXY df columns columns_x columns_y = .error .valueError
        ↔ columns_x.isNone ≠ columns_y.isNone)
    ∧ (∀ (df : DataFrame) (columns columns_x columns_y : Option (List String))
        (columns_pairs : Option (List (String × String))) (t : Int),
      contingencyTables df columns columns_x columns_y columns_pairs t
          = .error .valueError
        ↔ columns_x.isNone ≠ columns_y.isNone) := by
  refine ⟨fun a => ?_, fun df c x y => ?_, fun df c x y p t => ?_⟩
  · by_cases h : a.columns_x.isNone ≠ a.columns_y.isNone
    · constructor
      · simp [bivariateInit, h]
      · simp only [ne_eq] at h
        simp [bivariateInit, h]
    · rw [ne_eq, not_not] at h
      constructor
      · simp [bivariateInit, h]
      · simp [bivariateInit, h]
  · by_cases h : x.isNone ≠ y.isNone
    · simp [getColumnsXY, h]
    · rw [ne_eq, not_not] at h
      have hne : getColumnsXY df c x y ≠ .error .valueError := by
        unfold getColumnsXY
        rw [if_neg (by simp [h])]
        exact bindE_ne_valueError _ _
          (filterE_ne_valueError _ (isNumericE_ne_valueError df) _)
          (fun fx => bindE_ne_valueError _ _
            (filterE_ne_valueError _ (isNumericE_ne_valueError df) _)
            (fun fy => by simp))
      simp [hne, h]
  · by_cases h : x.isNone ≠ y.isNone
    · simp [contingencyTables, h]
    · rw [ne_eq, not_not] at h
      have hne : contingencyTables df c x y p t ≠ .error .valueError := by
        unfold contingencyTables
        rw [if_neg (by simp [h])]
        exact filterE_ne_valueError _
          (includeColumnPairE_ne_valueError df t) _
      simp [hne, h]

/-! ## Claim C10 -/

lemma nunique_eq_zero_iff_allNull (c : Column) :
    c.nunique = 0 ↔ c.allNull = true := by
  unfold Column.nunique Column.allNull
  rw [List.length_eq_zero, List.dedup_eq_nil, List.filterMap_eq_nil_iff]
  simp [Option.isNone_iff_eq_none]

lemma includeColumnB_zero (c : Column) : includeColumnB 0 c = false := by
  unfold includeColumnB
  by_cases h : c.allNull = true
  · simp [h]
  · have h0 : c.nunique ≠ 0 := fun hn =>
      h ((nunique_eq_zero_iff_allNull c).mp hn)
    have h1 : ¬((c.nunique : Int) ≤ 0) := by
      have := Nat.pos_of_ne_zero h0
      omega
    simp [h1]

lemma includeColumnPairE_zero (df : DataFrame) (p : String × String)
    (b : Bool) (h : includeColumnPairE df 0 p = .ok b) : b = false := by
  unfold includeColumnPairE at h
  by_cases he : p.1 = p.2
  · simp [he] at h
    exact h
  · simp only [he, if_false] at h
    unfold includeColumnE at h
    cases hl : df.lookupE p.1 with
    | error e => rw [hl] at h; simp [Bind.bind, Except.bind] at h
    | ok col =>
      rw [hl] at h
      simp [Bind.bind, Except.bind, includeColumnB_zero] at h
      exact h

lemma filterE_pairs_zero (df : DataFrame) :
    ∀ (pairs : List (String × String)) (l : List (String × String)),
      filterE (includeColumnPairE df 0) pairs = .ok l → l = [] := by
  intro pairs
  induction pairs with
  | nil =>
    intro l h
    simp [filterE] at h
    exact h
  | cons a t ih =>
    intro l h
    simp only [filterE] at h
    cases ha : includeColumnPairE df 0 a with
    | error e => rw [ha] at h; simp [Bind.bind, Except.bind] at h
    | ok b =>
      have hb := includeColumnPairE_zero df a b ha
      subst hb
      rw [ha] at h
      cases ht : filterE (includeColumnPairE df 0) t with
      | error e => rw [ht] at h; simp [Bind.bind, Except.bind] at h
      | ok rest =>
        rw [ht] at h
        simp [Bind.bind, Except.bind] at h
        exact h ▸ ih rest ht

/-- Claim C10: with `table_threshold = 0`, `contingency_tables` displays no
contingency table at all — the inclusion test is false for every column
(the only columns with `nunique <= 0` are all-null, and all-null columns
are excluded by the second conjunct), so every candidate pair is filtered
out; and only a strictly negative `table_threshold` disables the
unique-value-count criterion (for `t < 0` the criterion reduces to the
not-all-null test, for `t >= 0` it requires `nunique <= t`). -/
theorem c10_contingency_threshold_zero :
    (∀ c : Column, includeColumnB 0 c = false)
    ∧ (∀ (df : DataFrame) (columns columns_x columns_y : Option (List String))
        (columns_pairs : Option (List (String × String)))
        (l : List (String × String)),
        contingencyTables df columns columns_x columns_y columns_pairs 0
            = .ok l →
        l = [])
    ∧ (∀ (t : Int) (c : Column), t < 0 → includeColumnB t c = !c.allNull)
    ∧ (∀ (t : Int) (c : Column), 0 ≤ t →
        includeColumnB t c
          = (decide ((c.nunique : Int) ≤ t) && !c.allNull)) := by
  refine ⟨includeColumnB_zero, fun df c x y p l h => ?_,
    fun t c ht => ?_, fun t c ht => ?_⟩
  · unfold contingencyTables at h
    by_cases hxy : x.isNone ≠ y.isNone
    · rw [if_pos hxy] at h
      simp at h
    · rw [if_neg hxy] at h
      exact filterE_pairs_zero df _ l h
  · unfold includeColumnB
    simp [ht]
  · unfold includeColumnB
    have : ¬(t < 0) := by omega
    simp [this]

/-- Witness for claim C10 at concrete inputs: a two-column dataframe with a
two-valued and a constant column yields no contingency table at threshold 0,
and the criterion forms at negative and non-negative thresholds evaluate as
stated. -/
theorem c10_contingency_threshold_zero_witness :
    ([] : List (String × String)) = []
    ∧ includeColumnB (-1) ⟨"a", true, false, false, .NUMERIC,
        [some "x", some "y"]⟩
      = !(Column.allNull ⟨"a", true, false, false, .NUMERIC,
          [some "x", some "y"]⟩)
    ∧ includeColumnB 2 ⟨"a", true, false, false, .NUMERIC,
        [some "x", some "y"]⟩
      = (decide ((Column.nunique ⟨"a", true, false, false, .NUMERIC,
            [some "x", some "y"]⟩ : Int) ≤ 2)
          && !(Column.allNull ⟨"a", true, false, false, .NUMERIC,
            [some "x", some "y"]⟩)) :=
  ⟨c10_contingency_threshold_zero.2.1
      ⟨[⟨"a", true, false, false, .NUMERIC, [some "x", some "y"]⟩,
        ⟨"b", true, false, false, .NUMERIC, [some "x", some "x"]⟩], true⟩
      none none none none [] rfl,
   c10_contingency_threshold_zero.2.2.1 (-1) _ (by decide),
   c10_contingency_threshold_zero.2.2.2 2 _ (by decide)⟩

/-! ## Claim C5 -/

lemma find?_name_of_nodup :
    ∀ (l : List Column) (c : Column),
      (l.map (fun d => d.name)).Nodup → c ∈ l →
      l.find? (fun d => d.name = c.name) = some c := by
  intro l
  induction l with
  | nil => intro c _ hc; exact absurd hc (List.not_mem_nil c)
  | cons d t ih =>
    intro c hnd hc
    rw [List.map_cons, List.nodup_cons] at hnd
    rcases List.mem_cons.mp hc with rfl | hct
    · rw [List.find?_cons_of_pos _ (by simp)]
    · have hne : ¬(d.name = c.name) := fun he =>
        hnd.1 (he ▸ List.mem_map.mpr ⟨c, hct, rfl⟩)
      rw [List.find?_cons_of_neg _ (by simpa using hne)]
      exact ih c hnd.2 hct

lemma lookup_self_of_nodup (df : DataFrame) (hnd : df.names.Nodup)
    (c : Column) (hc : c ∈ df.cols) : df.lookup c.name = some c :=
  find?_name_of_nodup df.cols c hnd hc

lemma lookup_some_of_mem_names (df : DataFrame) (n : String)
    (h : n ∈ df.names) : ∃ c, df.lookup n = some c := by
  unfold DataFrame.names at h
  rcases List.mem_map.mp h with ⟨c, hc, rfl⟩
  have : (df.cols.find? (fun d => d.name = c.name)).isSome := by
    rw [List.find?_isSome]
    exact ⟨c, hc, by simp⟩
  rcases Option.isSome_iff_exists.mp this with ⟨d, hd⟩
  exact ⟨d, hd⟩

lemma filterE_numeric_cols (df : DataFrame) :
    ∀ l : List Column, (∀ c ∈ l, df.lookup c.name = some c) →
      filterE df.isNumericE (l.map (fun c => c.name))
        = .ok ((l.filter (fun c => c.isNumericCol)).map (fun c => c.name)) := by
  intro l
  induction l with
  | nil => intro _; simp [filterE]
  | cons c t ih =>
    intro h
    have hc : df.lookup c.name = some c := h c (List.mem_cons_self c t)
    have ht := ih (fun d hd => h d (List.mem_cons_of_mem c hd))
    rw [List.map_cons]
    show (do
      let b ← df.isNumericE c.name
      let rest ← filterE df.isNumericE (t.map (fun d : Column => d.name))
      .ok (if b then c.name :: rest else rest)) = _
    rw [ht]
    unfold DataFrame.isNumericE DataFrame.lookupE
    rw [hc]
    cases hb : c.isNumericCol <;>
      simp [Bind.bind, Except.bind, List.filter_cons, hb]

lemma filterE_numeric_names (df : DataFrame) :
    ∀ cols : List String, (∀ n ∈ cols, n ∈ df.names) →
      filterE df.isNumericE cols
        = .ok (cols.filter (fun n => df.isNumericName n)) := by
  intro cols
  induction cols with
  | nil => intro _; simp [filterE]
  | cons n t ih =>
    intro h
    rcases lookup_some_of_mem_names df n (h n (List.mem_cons_self n t)) with
      ⟨c, hc⟩
    have ht := ih (fun m hm => h m (List.mem_cons_of_mem n hm))
    show (do
      let b ← df.isNumericE n
      let rest ← filterE df.isNumericE t
      .ok (if b then n :: rest else rest)) = _
    rw [ht]
    unfold DataFrame.isNumericE DataFrame.lookupE
    rw [hc]
    have hnum : df.isNumericName n = c.isNumericCol := by
      unfold DataFrame.isNumericName
      rw [hc]
    cases hb : c.isNumericCol <;>
      simp [Bind.bind, Except.bind, List.filter_cons, hb, hnum]

/-- Claim C5: on a dataframe with distinct column labels,
`CorrelationPlot._get_columns_x_y` with `columns`, `columns_x`, `columns_y`
all unspecified returns two equal lists: exactly the numeric columns of the
dataframe in dataframe order; with `columns_x` and `columns_y` both
specified (over existing labels), it returns the two input lists with the
non-numeric columns removed, order preserved, `columns` being ignored. -/
theorem c5_get_columns_x_y_resolution :
    ∀ df : DataFrame, df.names.Nodup →
      (getColumnsXY df none none none
        = .ok (df.numericNames, df.numericNames))
      ∧ (∀ (columns : Option (List String)) (cx cy : List String),
          (∀ n ∈ cx, n ∈ df.names) → (∀ n ∈ cy, n ∈ df.names) →
          getColumnsXY df columns (some cx) (some cy)
            = .ok (cx.filter (fun n => df.isNumericName n),
                   cy.filter (fun n => df.isNumericName n))) := by
  intro df hnd
  have hall : ∀ c ∈ df.cols, df.lookup c.name = some c :=
    fun c hc => lookup_self_of_nodup df hnd c hc
  constructor
  · show (do
      let fx ← filterE df.isNumericE df.names
      let fy ← filterE df.isNumericE df.names
      .ok (fx, fy)) = _
    have : filterE df.isNumericE df.names
        = .ok ((df.cols.filter (fun c : Column => c.isNumericCol)).map
            (fun c : Column => c.name)) :=
      filterE_numeric_cols df df.cols hall
    rw [this]
    simp [Bind.bind, Except.bind, DataFrame.numericNames]
  · intro columns cx cy hcx hcy
    show (do
      let fx ← filterE df.isNumericE cx
      let fy ← filterE df.isNumericE cy
      .ok (fx, fy)) = _
    rw [filterE_numeric_names df cx hcx, filterE_numeric_names df cy hcy]
    simp [Bind.bind, Except.bind]

/-- Witness for claim C5 at a concrete dataframe with three columns, the
middle one non-numeric. -/
theorem c5_get_columns_x_y_resolution_witness :
    getColumnsXY
        ⟨[⟨"n1", true, false, false, .NUMERIC, [some "1"]⟩,
          ⟨"s1", false, true, false, .CATEGORICAL, [some "u"]⟩,
          ⟨"n2", true, false, false, .NUMERIC, [some "2"]⟩], true⟩
        none none none
      = .ok (["n1", "n2"], ["n1", "n2"])
    ∧ getColumnsXY
        ⟨[⟨"n1", true, false, false, .NUMERIC, [some "1"]⟩,
          ⟨"s1", false, true, false, .CATEGORICAL, [some "u"]⟩,
          ⟨"n2", true, false, false, .NUMERIC, [some "2"]⟩], true⟩
        (some ["n1"]) (some ["s1", "n2"]) (some ["n1"])
      = .ok (["n2"], ["n1"]) := by
  have h := c5_get_columns_x_y_resolution
    ⟨[⟨"n1", true, false, false, .NUMERIC, [some "1"]⟩,
      ⟨"s1", false, true, false, .CATEGORICAL, [some "u"]⟩,
      ⟨"n2", true, false, false, .NUMERIC, [some "2"]⟩], true⟩ (by decide)
  exact ⟨h.1, h.2 (some ["n1"]) ["s1", "n2"] ["n1"] (by decide) (by decide)⟩

/-! ## Claim C6 -/

/-- Claim C6: every analyzed column that is not entirely null is dispatched
by inferred semantic type — `CATEGORICAL` or `BOOLEAN` columns get the
most-frequent-values table and bar plot, every other non-null column gets
the statistics tables and histogram — while an all-null column gets only
the NULL note; and `UnivariateAnalysis.show` performs exactly the same
per-column analysis as the static `univariate_analysis`. -/
theorem c6_univariate_dispatch :
    (∀ (st : UniState) (df : DataFrame),
      univariateShow st df = univariate_analysis df st.columns)
    ∧ (∀ (df : DataFrame) (out : List (String × ColAction)),
        univariate_analysis df none = .ok out →
        out.length = df.cols.length
        ∧ ∀ c ∈ df.cols,
            (c.allNull = true → (c.name, ColAction.nullNote) ∈ out)
            ∧ (c.allNull = false →
                (c.dtype = .CATEGORICAL ∨ c.dtype = .BOOLEAN) →
                (c.name, ColAction.freqAndBar) ∈ out)
            ∧ (c.allNull = false →
                ¬(c.dtype = .CATEGORICAL ∨ c.dtype = .BOOLEAN) →
                (c.name, ColAction.statsAndHist) ∈ out)) := by
  constructor
  · intro st df
    rfl
  · intro df out h
    have hout : out = df.cols.map (fun c => (c.name, univariateColAction c)) := by
      have : univariate_analysis df none
          = .ok (df.cols.map (fun c => (c.name, univariateColAction c))) := rfl
      rw [this] at h
      exact ((Except.ok.injEq _ _).mp h).symm
    subst hout
    refine ⟨by simp, fun c hc => ⟨fun hnull => ?_, fun hnn hcat => ?_,
      fun hnn hncat => ?_⟩⟩
    · exact List.mem_map.mpr ⟨c, hc, by simp [univariateColAction, hnull]⟩
    · exact List.mem_map.mpr ⟨c, hc, by simp [univariateColAction, hnn, hcat]⟩
    · exact List.mem_map.mpr ⟨c, hc,
        by simp [univariateColAction, hnn, hncat]⟩

/-- Witness for claim C6 at a concrete dataframe with an all-null column, a
categorical column and a numeric column. -/
theorem c6_univariate_dispatch_witness :
    (univariateShow
        ⟨⟨[], true⟩, 0, none⟩
        ⟨[⟨"z", false, false, false, .NONE, [none, none]⟩], true⟩
      = univariate_analysis
          ⟨[⟨"z", false, false, false, .NONE, [none, none]⟩], true⟩ none)
    ∧ (("z", ColAction.nullNote)
        ∈ [("z", ColAction.nullNote), ("c", ColAction.freqAndBar),
           ("n", ColAction.statsAndHist)]
      ∧ ("c", ColAction.freqAndBar)
        ∈ [("z", ColAction.nullNote), ("c", ColAction.freqAndBar),
           ("n", ColAction.statsAndHist)]
      ∧ ("n", ColAction.statsAndHist)
        ∈ [("z", ColAction.nullNote), ("c", ColAction.freqAndBar),
           ("n", ColAction.statsAndHist)]) := by
  have h := c6_univariate_dispatch
  have h2 := h.2
    ⟨[⟨"z", false, false, false, .NONE, [none, none]⟩,
      ⟨"c", false, true, false, .CATEGORICAL, [some "u"]⟩,
      ⟨"n", true, false, false, .NUMERIC, [some "1"]⟩], true⟩
    [("z", ColAction.nullNote), ("c", ColAction.freqAndBar),
     ("n", ColAction.statsAndHist)] rfl
  refine ⟨h.1 ⟨⟨[], true⟩, 0, none⟩ _, ?_, ?_, ?_⟩
  · exact (h2.2 ⟨"z", false, false, false, .NONE, [none, none]⟩
      (by decide)).1 (by decide)
  · exact (h2.2 ⟨"c", false, true, false, .CATEGORICAL, [some "u"]⟩
      (by decide)).2.1 (by decide) (by decide)
  · exact (h2.2 ⟨"n", true, false, false, .NUMERIC, [some "1"]⟩
      (by decide)).2.2 (by decide) (by decide)

/-! ## Claim C7 -/

lemma validateNumeric_iff (df : DataFrame) :
    ∀ cs : List String, (∀ n ∈ cs, n ∈ df.names) →
      (validateNumericColumns df cs = .error .valueError
        ↔ ∃ n ∈ cs, df.isNumericName n = false)
      ∧ (validateNumericColumns df cs = .ok ()
        ↔ ∀ n ∈ cs, df.isNumericName n = true) := by
  intro cs
  induction cs with
  | nil => intro _; simp [validateNumericColumns]
  | cons n t ih =>
    intro h
    rcases lookup_some_of_mem_names df n (h n (List.mem_cons_self n t)) with
      ⟨c, hc⟩
    have ht := ih (fun m hm => h m (List.mem_cons_of_mem n hm))
    have hnum : df.isNumericName n = c.isNumericCol := by
      unfold DataFrame.isNumericName
      rw [hc]
    have hstep : validateNumericColumns df (n :: t)
        = if c.isNumericCol then validateNumericColumns df t
          else .error .valueError := by
      show (do
        let b ← df.isNumericE n
        if b then validateNumericColumns df t else .error .valueError) = _
      unfold DataFrame.isNumericE DataFrame.lookupE
      rw [hc]
      cases hb : c.isNumericCol <;> simp [Bind.bind, Except.bind, hb]
    rw [hstep]
    cases hb : c.isNumericCol
    · rw [if_neg (by simp)]
      constructor
      · constructor
        · intro _
          exact ⟨n, List.mem_cons_self n t, by rw [hnum, hb]⟩
        · intro _; rfl
      · constructor
        · intro hco; exact absurd hco (by simp)
        · intro hall
          have := hall n (List.mem_cons_self n t)
          rw [hnum, hb] at this
          exact absurd this (by simp)
    · rw [if_pos rfl]
      constructor
      · rw [ht.1]
        constructor
        · rintro ⟨m, hm, hmn⟩
          exact ⟨m, List.mem_cons_of_mem n hm, hmn⟩
        · rintro ⟨m, hm, hmn⟩
          rcases List.mem_cons.mp hm with rfl | hmt
          · rw [hnum, hb] at hmn
            exact absurd hmn (by simp)
          · exact ⟨m, hmt, hmn⟩
      · rw [ht.2]
        constructor
        · intro hall m hm
          rcases List.mem_cons.mp hm with rfl | hmt
          · rw [hnum, hb]
          · exact hall m hmt
        · intro hall m hm
          exact hall m (List.mem_cons_of_mem n hm)

lemma validate_bind_valueError_iff (df : DataFrame) (cs : List String)
    (h : ∀ n ∈ cs, n ∈ df.names) {β : Type} (k : Unit → Except Err β)
    (hk : ∀ u, k u ≠ .error .valueError) :
    (validateNumericColumns df cs >>= k) = .error .valueError
      ↔ ∃ n ∈ cs, df.isNumericName n = false := by
  have hv := validateNumeric_iff df cs h
  cases hvv : validateNumericColumns df cs with
  | error e =>
    have hred : (Except.error e >>= k) = (.error e : Except Err β) := rfl
    rw [hred]
    cases e
    · constructor
      · intro _
        exact hv.1.mp hvv
      · intro _; rfl
    · constructor
      · intro hco; exact absurd hco (by simp)
      · intro hex
        have := hv.1.mpr hex
        rw [hvv] at this
        exact absurd this (by simp)
  | ok u =>
    cases u
    have hred : (Except.ok () >>= k) = k () := rfl
    rw [hred]
    constructor
    · intro hco; exact absurd hco (hk ())
    · intro hex
      have := hv.1.mpr hex
      rw [hvv] at this
      exact absurd this (by simp)

/-- Claim C7 counterexample: `Autocorrelation.plot_acf` raises `ValueError`
on a dataframe whose index is not an ascending time index even though
`columns` is unspecified (so no given column is non-numeric), contradicting
the claim that `ValueError` is raised if and only if the explicitly given
columns contain a non-numeric column of the dataframe (and never when
`columns` is unspecified). -/
theorem c7_counterexample_acf_index :
    plotAcf ⟨[⟨"a", true, false, false, .NUMERIC, [some "1"]⟩], false⟩ none
      = .error .valueError := rfl

/-- Claim C7 as amended: `UMAP.plot_umap`, the `UMAP` constructor and
`Autocorrelation.plot_acf` raise `ValueError` on an explicitly given column
list (of existing labels) exactly when it contains a non-numeric column of
the dataframe, and with `columns` unspecified they resolve it to exactly
the numeric columns of the dataframe and raise no error — except that
`plot_acf` is additionally guarded by the `check_index_time_ascending`
decorator, so its statements hold under the hypothesis that the dataframe
index is an ascending time index. -/
theorem c7_numeric_validation_amended :
    (∀ (df : DataFrame) (cs : List String), (∀ n ∈ cs, n ∈ df.names) →
      (plotUmap df (some cs) = .error .valueError
        ↔ ∃ n ∈ cs, df.isNumericName n = false)
      ∧ (umapInit df (some cs) = .error .valueError
        ↔ ∃ n ∈ cs, df.isNumericName n = false)
      ∧ (df.indexTimeAscending = true →
          (plotAcf df (some cs) = .error .valueError
            ↔ ∃ n ∈ cs, df.isNumericName n = false)))
    ∧ (∀ df : DataFrame,
        plotUmap df none = .ok df.numericNames
        ∧ (∃ stored, umapInit df none = .ok stored
            ∧ resolveStoredColumns df stored = df.numericNames)
        ∧ (df.indexTimeAscending = true →
            plotAcf df none = .ok df.numericNames)) := by
  constructor
  · intro df cs h
    refine ⟨?_, ?_, ?_⟩
    · exact validate_bind_valueError_iff df cs h
        (fun _ => (.ok cs : Except Err (List String))) (by simp)
    · exact validate_bind_valueError_iff df cs h
        (fun _ => (.ok (some cs) : Except Err (Option (List String))))
        (by simp)
    · intro hasc
      have hred : plotAcf df (some cs)
          = (validateNumericColumns df cs >>=
              fun _ => (.ok cs : Except Err (List String))) := by
        unfold plotAcf
        rw [hasc]
        rfl
      rw [hred]
      exact validate_bind_valueError_iff df cs h _ (by simp)
  · intro df
    refine ⟨rfl, ?_, ?_⟩
    · by_cases hl : df.numericNames.length = df.cols.length
      · refine ⟨none, ?_, rfl⟩
        show Except.ok (if df.numericNames.length = df.cols.length
            then none else some df.numericNames) = Except.ok none
        rw [if_pos hl]
      · refine ⟨some df.numericNames, ?_, rfl⟩
        show Except.ok (if df.numericNames.length = df.cols.length
            then none else some df.numericNames)
          = Except.ok (some df.numericNames)
        rw [if_neg hl]
    · intro hasc
      unfold plotAcf
      rw [hasc]
      rfl

/-- Witness for claim C7 at a concrete two-column dataframe (one numeric,
one categorical column, ascending time index). -/
theorem c7_numeric_validation_amended_witness :
    plotUmap
        ⟨[⟨"n", true, false, false, .NUMERIC, [some "1"]⟩,
          ⟨"s", false, true, false, .CATEGORICAL, [some "u"]⟩], true⟩
        (some ["n", "s"])
      = .error .valueError
    ∧ plotUmap
        ⟨[⟨"n", true, false, false, .NUMERIC, [some "1"]⟩,
          ⟨"s", false, true, false, .CATEGORICAL, [some "u"]⟩], true⟩
        none
      = .ok ["n"]
    ∧ plotAcf
        ⟨[⟨"n", true, false, false, .NUMERIC, [some "1"]⟩,
          ⟨"s", false, true, false, .CATEGORICAL, [some "u"]⟩], true⟩
        none
      = .ok ["n"] := by
  have h1 := (c7_numeric_validation_amended.1
    ⟨[⟨"n", true, false, false, .NUMERIC, [some "1"]⟩,
      ⟨"s", false, true, false, .CATEGORICAL, [some "u"]⟩], true⟩
    ["n", "s"] (by decide)).1.mpr ⟨"s", by decide, by decide⟩
  have h2 := c7_numeric_validation_amended.2
    ⟨[⟨"n", true, false, false, .NUMERIC, [some "1"]⟩,
      ⟨"s", false, true, false, .CATEGORICAL, [some "u"]⟩], true⟩
  exact ⟨h1, h2.1, h2.2.2 rfl⟩

/-! ## Claim C9 -/

lemma occ_filter_ne (v w : String) (h : w ≠ v) :
    ∀ l : List String, occ w (l.filter (fun x => !(x == v))) = occ w l := by
  intro l
  induction l with
  | nil => rfl
  | cons x rest ih =>
    by_cases hx : x = v
    · subst hx
      rw [List.filter_cons_of_neg (by simp)]
      rw [ih]
      show occ w rest = (if x = w then 1 else 0) + occ w rest
      rw [if_neg (fun hvw => h hvw.symm)]
      omega
    · rw [List.filter_cons_of_pos (by simp [hx])]
      show (if x = w then 1 else 0) + occ w (List.filter _ rest)
        = (if x = w then 1 else 0) + occ w rest
      rw [ih]

lemma length_filter_occ (v : String) :
    ∀ l : List String,
      l.length = occ v l + (l.filter (fun x => !(x == v))).length := by
  intro l
  induction l with
  | nil => rfl
  | cons x rest ih =>
    by_cases hx : x = v
    · subst hx
      rw [List.filter_cons_of_neg (by simp)]
      show rest.length + 1 = ((if x = x then 1 else 0) + occ x rest) + _
      rw [if_pos rfl]
      omega
    · rw [List.filter_cons_of_pos (by simp [hx])]
      show rest.length + 1
        = ((if x = v then 1 else 0) + occ v rest)
          + ((rest.filter (fun x => !(x == v))).length + 1)
      rw [if_neg hx]
      omega

lemma distinctFirst_subset_aux :
    ∀ (n : Nat) (l : List String), l.length ≤ n →
      ∀ w ∈ distinctFirst l, w ∈ l := by
  intro n
  induction n with
  | zero =>
    intro l hl w hw
    have : l = [] := List.eq_nil_of_length_eq_zero (Nat.le_zero.mp hl)
    subst this
    simp [distinctFirst] at hw
  | succ n ih =>
    intro l hl w hw
    cases l with
    | nil => simp [distinctFirst] at hw
    | cons v rest =>
      rw [show distinctFirst (v :: rest)
          = v :: distinctFirst (rest.filter (fun x => !(x == v)))
        from by rw [distinctFirst]] at hw
      rcases List.mem_cons.mp hw with rfl | hw2
      · exact List.mem_cons_self w rest
      · have hlen : (rest.filter (fun x => !(x == v))).length ≤ n := by
          have h1 := rest.length_filter_le (fun x => !(x == v))
          simp only [List.length_cons] at hl
          omega
        have := ih _ hlen w hw2
        exact List.mem_cons_of_mem v (List.mem_of_mem_filter this)

lemma distinctFirst_subset (l : List String) (w : String)
    (h : w ∈ distinctFirst l) : w ∈ l :=
  distinctFirst_subset_aux l.length l le_rfl w h

lemma distinctFirst_ne_of_mem_filter (v w : String)
    (l : List String)
    (h : w ∈ distinctFirst (l.filter (fun x => !(x == v)))) : w ≠ v := by
  have := distinctFirst_subset _ w h
  have := List.of_mem_filter this
  simpa using this

lemma distinctFirst_sum_aux :
    ∀ (n : Nat) (l : List String), l.length ≤ n →
      ((distinctFirst l).map (fun v => occ v l)).sum = l.length := by
  intro n
  induction n with
  | zero =>
    intro l hl
    have : l = [] := List.eq_nil_of_length_eq_zero (Nat.le_zero.mp hl)
    subst this
    simp [distinctFirst]
  | succ n ih =>
    intro l hl
    cases l with
    | nil => simp [distinctFirst]
    | cons v rest =>
      rw [show distinctFirst (v :: rest)
          = v :: distinctFirst (rest.filter (fun x => !(x == v)))
        from by rw [distinctFirst]]
      rw [List.map_cons, List.sum_cons]
      have hcongr :
          (distinctFirst (rest.filter (fun x => !(x == v)))).map
              (fun w => occ w (v :: rest))
            = (distinctFirst (rest.filter (fun x => !(x == v)))).map
              (fun w => occ w (rest.filter (fun x => !(x == v)))) := by
        refine List.map_congr_left (fun w hw => ?_)
        have hne : w ≠ v := distinctFirst_ne_of_mem_filter v w rest hw
        show (if v = w then 1 else 0) + occ w rest = _
        rw [if_neg (fun hvw => hne hvw.symm)]
        rw [occ_filter_ne v w hne rest]
        omega
      rw [hcongr]
      have hlen : (rest.filter (fun x => !(x == v))).length ≤ n := by
        have h1 := rest.length_filter_le (fun x => !(x == v))
        simp only [List.length_cons] at hl
        omega
      rw [ih _ hlen]
      have hocc : occ v (v :: rest) = 1 + occ v rest := by
        show (if v = v then 1 else 0) + occ v rest = 1 + occ v rest
        rw [if_pos rfl]
      rw [hocc]
      have := length_filter_occ v rest
      simp only [List.length_cons]
      omega

lemma valueCounts_perm (s : List (Option String)) :
    List.Perm (valueCounts s)
      ((distinctFirst (s.filterMap id)).map
        (fun v => (v, occ v (s.filterMap id)))) :=
  List.mergeSort_perm _ _

lemma valueCounts_snd_sum (s : List (Option String)) :
    ((valueCounts s).map (fun p => p.2)).sum = (s.filterMap id).length := by
  have hperm := (valueCounts_perm s).map (fun p : String × Nat => p.2)
  rw [hperm.sum_eq]
  rw [List.map_map]
  have : (fun p : String × Nat => p.2) ∘
      (fun v => (v, occ v (s.filterMap id)))
      = fun v => occ v (s.filterMap id) := rfl
  rw [this]
  exact distinctFirst_sum_aux (s.filterMap id).length _ le_rfl

lemma valueCounts_key_mem (s : List (Option String)) (p : String × Nat)
    (hp : p ∈ valueCounts s) : some p.1 ∈ s := by
  have hmem := (valueCounts_perm s).mem_iff.mp hp
  rcases List.mem_map.mp hmem with ⟨v, hv, hpv⟩
  have hvs : v ∈ s.filterMap id := distinctFirst_subset _ v hv
  rcases List.mem_filterMap.mp hvs with ⟨a, ha, hav⟩
  have : a = some v := hav
  subst this
  rw [← hpv]
  exact ha

lemma dictUpsert_append (d : List (String × Nat)) (k : String) (v : Nat)
    (h : ∀ p ∈ d, p.1 ≠ k) : dictUpsert d k v = d ++ [(k, v)] := by
  unfold dictUpsert
  rw [if_neg]
  intro hany
  rcases List.any_eq_true.mp hany with ⟨p, hp, hpk⟩
  exact h p hp (by simpa using hpk)

lemma filterMap_length_add_countP (s : List (Option String)) :
    (s.filterMap id).length + s.countP (fun v => v.isNone) = s.length := by
  induction s with
  | nil => rfl
  | cons a t ih =>
    cases a <;>
      simp only [List.filterMap_cons, List.countP_cons, List.length_cons] <;>
      simp [ih] <;> omega

/-- Claim C9: for a non-empty series none of whose values equals
`"Other values count"` or `"Null"`, the dictionary returned by
`top_frequent_values(series, n_top)` has at most `n_top + 2` entries, its
counts partition the series (the top `n_top` counts plus the
"Other values count" count plus the "Null" count sum to `len(series)`),
and every reported relative frequency is the entry count divided by
`len(series)` times 100. -/
theorem c9_top_frequent_values_partition :
    ∀ (s : List (Option String)) (nTop : Nat),
      s ≠ [] →
      (∀ v ∈ s, v ≠ some "Other values count") →
      (∀ v ∈ s, v ≠ some "Null") →
      (top_frequent_values s nTop).length ≤ nTop + 2
      ∧ ((top_frequent_values s nTop).map (fun p => p.2.1)).sum = s.length
      ∧ ∀ p ∈ top_frequent_values s nTop,
          p.2.2 = 100 * (p.2.1 : ℚ) / (s.length : ℚ) := by
  intro s nTop _hne hother hnull
  have hkey : ∀ p ∈ valueCounts s,
      p.1 ≠ "Other values count" ∧ p.1 ≠ "Null" := by
    intro p hp
    have hmem := valueCounts_key_mem s p hp
    exact ⟨fun he => hother _ hmem (by rw [he]),
           fun he => hnull _ hmem (by rw [he])⟩
  have htake : ∀ p ∈ (valueCounts s).take nTop,
      p.1 ≠ "Other values count" ∧ p.1 ≠ "Null" :=
    fun p hp => hkey p (List.mem_of_mem_take hp)
  have hD1 : dictUpsert ((valueCounts s).take nTop) "Other values count"
        (((valueCounts s).drop nTop).map Prod.snd).sum
      = (valueCounts s).take nTop
        ++ [("Other values count",
             (((valueCounts s).drop nTop).map Prod.snd).sum)] :=
    dictUpsert_append _ _ _ (fun p hp => (htake p hp).1)
  have hD2 : dictUpsert
        ((valueCounts s).take nTop
          ++ [("Other values count",
               (((valueCounts s).drop nTop).map Prod.snd).sum)])
        "Null" (s.countP (fun v => v.isNone))
      = (valueCounts s).take nTop
        ++ [("Other values count",
             (((valueCounts s).drop nTop).map Prod.snd).sum),
            ("Null", s.countP (fun v => v.isNone))] := by
    rw [dictUpsert_append]
    · simp
    · intro p hp
      rcases List.mem_append.mp hp with hp1 | hp2
      · exact (htake p hp1).2
      · have hpe := List.mem_singleton.mp hp2
        rw [hpe]
        exact (by decide : "Other values count" ≠ "Null")
  have hbase : top_frequent_values s nTop
      = ((valueCounts s).take nTop
          ++ [("Other values count",
               (((valueCounts s).drop nTop).map Prod.snd).sum),
              ("Null", s.countP (fun v => v.isNone))]).map
          (fun p => (p.1, p.2, 100 * (p.2 : ℚ) / (s.length : ℚ))) := by
    simp only [top_frequent_values]
    rw [hD1, hD2]
  refine ⟨?_, ?_, ?_⟩
  · rw [hbase]
    rw [List.length_map, List.length_append]
    have := (valueCounts s).length_take_le nTop
    simp only [List.length_cons, List.length_nil]
    omega
  · rw [hbase]
    rw [List.map_map]
    have hcomp : ((fun p : String × Nat × ℚ => p.2.1) ∘
        (fun p : String × Nat => (p.1, p.2, 100 * (p.2 : ℚ) / (s.length : ℚ))))
        = fun p : String × Nat => p.2 := rfl
    rw [hcomp]
    rw [List.map_append, List.sum_append]
    have hsplit : (((valueCounts s).take nTop).map
          (fun p : String × Nat => p.2)).sum
        + (((valueCounts s).drop nTop).map
          (fun p : String × Nat => p.2)).sum
        = ((valueCounts s).map (fun p : String × Nat => p.2)).sum := by
      conv_rhs => rw [← List.take_append_drop nTop (valueCounts s)]
      rw [List.map_append, List.sum_append]
    have hvc := valueCounts_snd_sum s
    have hnan := filterMap_length_add_countP s
    have hmapsnd : ((valueCounts s).drop nTop).map Prod.snd
        = ((valueCounts s).drop nTop).map (fun p : String × Nat => p.2) := rfl
    simp only [List.map_cons, List.map_nil, List.sum_cons, List.sum_nil]
    rw [hmapsnd]
    omega
  · rw [hbase]
    intro p hp
    rcases List.mem_map.mp hp with ⟨q, _, hq⟩
    rw [← hq]

/-- Witness for claim C9 on the concrete series
`[some "a", some "a", some "b", none]` with `n_top = 1`. -/
theorem c9_top_frequent_values_partition_witness :
    (top_frequent_values [some "a", some "a", some "b", none] 1).length ≤ 1 + 2
    ∧ ((top_frequent_values [some "a", some "a", some "b", none] 1).map
        (fun p => p.2.1)).sum = 4
    ∧ ∀ p ∈ top_frequent_values [some "a", some "a", some "b", none] 1,
        p.2.2 = 100 * (p.2.1 : ℚ) / 4 := by
  have h := c9_top_frequent_values_partition
    [some "a", some "a", some "b", none] 1 (by decide)
    (by decide) (by decide)
  exact ⟨h.1, h.2.1, h.2.2⟩

/-! ## Claim C3 -/

lemma flatMap_congr {α β : Type} (l : List α) (f g : α → List β)
    (h : ∀ a ∈ l, f a = g a) : l.flatMap f = l.flatMap g := by
  induction l with
  | nil => rfl
  | cons a t ih =>
    rw [List.flatMap_cons, List.flatMap_cons,
      h a (List.mem_cons_self a t),
      ih (fun b hb => h b (List.mem_cons_of_mem a hb))]

lemma callsOf_append (l1 l2 : List Cell) :
    callsOf (l1 ++ l2) = callsOf l1 ++ callsOf l2 := by
  simp [callsOf]

lemma defnsOf_append (l1 l2 : List Cell) :
    defnsOf (l1 ++ l2) = defnsOf l1 ++ defnsOf l2 := by
  simp [defnsOf]

lemma callsOf_flatMap {α : Type} (f : α → List Cell) (l : List α) :
    callsOf (l.flatMap f) = l.flatMap (fun a => callsOf (f a)) := by
  induction l with
  | nil => rfl
  | cons a t ih =>
    rw [List.flatMap_cons, callsOf_append, ih, List.flatMap_cons]

lemma defnsOf_flatMap {α : Type} (f : α → List Cell) (l : List α) :
    defnsOf (l.flatMap f) = l.flatMap (fun a => defnsOf (f a)) := by
  induction l with
  | nil => rfl
  | cons a t ih =>
    rw [List.flatMap_cons, defnsOf_append, ih, List.flatMap_cons]

lemma callsOf_uniColCells (v : Nat) (c : Column) :
    callsOf (uniColCells v c)
      = if c.allNull then []
        else if c.dtype = .CATEGORICAL ∨ c.dtype = .BOOLEAN then
          [.callTopMostFrequent c.name, .callBarPlot c.name]
        else if v = 1 then
          [.callNumericStatistics c.name false, .callHistogram c.name]
        else
          [.callNumericStatistics c.name true, .callHistogram c.name] := by
  unfold uniColCells
  cases hn : c.allNull
  · by_cases hc : c.dtype = .CATEGORICAL ∨ c.dtype = .BOOLEAN
    · simp [hc, callsOf, Cell.items, CodeItem.isDefn]
    · by_cases hv : v = 1 <;>
        simp [hc, hv, callsOf, Cell.items, CodeItem.isDefn]
  · simp [callsOf]

lemma defnsOf_uniColCells (v : Nat) (c : Column) :
    defnsOf (uniColCells v c) = [] := by
  unfold uniColCells
  cases hn : c.allNull
  · by_cases hc : c.dtype = .CATEGORICAL ∨ c.dtype = .BOOLEAN
    · simp [hc, defnsOf, Cell.items, CodeItem.isDefn]
    · by_cases hv : v = 1 <;>
        simp [hc, hv, defnsOf, Cell.items, CodeItem.isDefn]
  · simp [defnsOf]

lemma promote_uniColCells (c : Column) :
    callsOf (uniColCells 2 c) = (callsOf (uniColCells 1 c)).map promoteStats := by
  rw [callsOf_uniColCells, callsOf_uniColCells]
  cases hn : c.allNull
  · by_cases hc : c.dtype = .CATEGORICAL ∨ c.dtype = .BOOLEAN <;>
      simp [hc, promoteStats]
  · simp

lemma mkImpls_verbosity (subsAll : List Subsec)
    (c xnp ynp x y : Option (List String))
    (p : Option (List (String × String))) (col : Option String) (v : Nat) :
    ∀ impl ∈ mkImpls subsAll c xnp ynp x y p col v v v,
      impl.verbosity = v := by
  intro impl h
  simp only [mkImpls] at h
  rcases List.mem_map.mp h with ⟨s, _, rfl⟩
  cases s <;> rfl

/-- Claim C3 counterexample: for a `UnivariateAnalysis` over a single
non-null numeric column, the calls emitted at verbosity 2 are NOT the same
as the calls emitted at verbosity 1: the verbosity-2 `numeric_statistics`
call passes the default statistics dictionaries explicitly
(`univariate_analysis.py:403-410`), while the verbosity-1 call does not. -/
theorem c3_counterexample_v2_extra_args :
    Except.map callsOf
        (univariateAddCells
          ⟨⟨[⟨"x", true, false, false, .NUMERIC, [some "1"]⟩], true⟩, 2, none⟩)
      ≠ Except.map callsOf
        (univariateAddCells
          ⟨⟨[⟨"x", true, false, false, .NUMERIC, [some "1"]⟩], true⟩, 1,
          none⟩) := by
  decide

/-- Claim C3 as amended: exported code text has three fidelity levels
selected by verbosity — verbosity 0 a single aggregate call and no inlined
definitions, verbosity 1 per-column (or per-subsection) calls and no
inlined definitions, verbosity 2 the inlined definitions followed by the
same calls, except that the per-column `numeric_statistics` calls of
verbosity 2 additionally pass the default statistics dictionaries
explicitly; and a subsection verbosity left as `None` is overridden by the
section-wide verbosity. -/
theorem c3_three_fidelity_levels_amended :
    (∀ (df0 : DataFrame) (cols : Option (List String)) (d : DataFrame),
      selectCols df0 cols = .ok d →
      (∀ c0, univariateAddCells ⟨df0, 0, cols⟩ = .ok c0 →
        callsOf c0 = [.callUnivariate cols] ∧ defnsOf c0 = [])
      ∧ (∀ c1, univariateAddCells ⟨df0, 1, cols⟩ = .ok c1 →
          defnsOf c1 = []
          ∧ callsOf c1 = d.cols.flatMap (fun c =>
              if c.allNull then []
              else if c.dtype = .CATEGORICAL ∨ c.dtype = .BOOLEAN then
                [.callTopMostFrequent c.name, .callBarPlot c.name]
              else
                [.callNumericStatistics c.name false, .callHistogram c.name]))
      ∧ (∀ c1 c2, univariateAddCells ⟨df0, 1, cols⟩ = .ok c1 →
          univariateAddCells ⟨df0, 2, cols⟩ = .ok c2 →
          callsOf c2 = (callsOf c1).map promoteStats
          ∧ defnsOf c2
            = [.defn "default_descriptive_statistics",
               .defn "default_quantile_statistics",
               .defn "top_most_frequent", .defn "bar_plot",
               .defn "numeric_statistics", .defn "histogram",
               .defn "format_number", .defn "dict_to_html",
               .defn "add_html_heading", .defn "subcells_html"]))
    ∧ (∀ st : CorrState,
        (st.verbosity = 0 ∨ st.verbosity = 1 →
          subAddCells (.corr st)
            = [Cell.markdown "## Correlation Plot",
               Cell.code [.callCorrelations (corrCellArgs st)]])
        ∧ (st.verbosity = 2 →
          subAddCells (.corr st)
            = [Cell.markdown "## Correlation Plot",
               Cell.code
                 [.defn "default_correlations", .defn "_get_columns_x_y",
                  .defn "plot_correlation", .defn "plot_correlations",
                  .callCorrelations (corrCellArgs st)]]))
    ∧ (∀ (a : BivArgs) (st : BivState),
        a.verbosity_correlations = none →
        a.verbosity_pairplot = none →
        a.verbosity_contingency_table = none →
        bivariateInit a = .ok st →
        ∀ impl ∈ st.subsections, impl.verbosity = a.verbosity) := by
  refine ⟨fun df0 cols d hd => ?_, fun st => ?_, fun a st hc hp hct hinit => ?_⟩
  · have h0 : univariateAddCells ⟨df0, 0, cols⟩
        = .ok [Cell.markdown "# Univariate Analysis",
               Cell.code [.callUnivariate cols]] := by
      unfold univariateAddCells
      rw [hd]
      simp [Bind.bind, Except.bind]
    have h1 : univariateAddCells ⟨df0, 1, cols⟩
        = .ok (Cell.markdown "# Univariate Analysis"
            :: d.cols.flatMap (uniColCells 1)) := by
      unfold univariateAddCells
      rw [hd]
      simp [Bind.bind, Except.bind]
    have h2 : univariateAddCells ⟨df0, 2, cols⟩
        = .ok (Cell.markdown "# Univariate Analysis"
            :: ([Cell.code [.defn "default_descriptive_statistics",
                            .defn "default_quantile_statistics"],
                 Cell.code [.defn "top_most_frequent", .defn "bar_plot",
                            .defn "numeric_statistics", .defn "histogram"],
                 Cell.code [.defn "format_number", .defn "dict_to_html",
                            .defn "add_html_heading", .defn "subcells_html"]]
              ++ d.cols.flatMap (uniColCells 2))) := by
      unfold univariateAddCells
      rw [hd]
      simp [Bind.bind, Except.bind]
    refine ⟨fun c0 hc0 => ?_, fun c1 hc1 => ?_, fun c1 c2 hc1 hc2 => ?_⟩
    · rw [h0] at hc0
      have : c0 = [Cell.markdown "# Univariate Analysis",
          Cell.code [.callUnivariate cols]] := (Except.ok.inj hc0).symm
      subst this
      constructor <;> simp [callsOf, defnsOf, Cell.items, CodeItem.isDefn]
    · rw [h1] at hc1
      have : c1 = Cell.markdown "# Univariate Analysis"
          :: d.cols.flatMap (uniColCells 1) := (Except.ok.inj hc1).symm
      subst this
      constructor
      · show defnsOf ([Cell.markdown "# Univariate Analysis"]
            ++ d.cols.flatMap (uniColCells 1)) = []
        rw [defnsOf_append, defnsOf_flatMap]
        have hnil : d.cols.flatMap (fun c => defnsOf (uniColCells 1 c))
            = d.cols.flatMap (fun _ => ([] : List CodeItem)) :=
          flatMap_congr _ _ _ (fun c _ => defnsOf_uniColCells 1 c)
        rw [hnil]
        simp [defnsOf, Cell.items]
      · show callsOf ([Cell.markdown "# Univariate Analysis"]
            ++ d.cols.flatMap (uniColCells 1)) = _
        rw [callsOf_append, callsOf_flatMap]
        have hmd : callsOf [Cell.markdown "# Univariate Analysis"] = [] := by
          simp [callsOf, Cell.items]
        rw [hmd, List.nil_append]
        refine flatMap_congr _ _ _ (fun c _ => ?_)
        rw [callsOf_uniColCells]
        by_cases hn : c.allNull = true
        · simp [hn]
        · by_cases hcb : c.dtype = .CATEGORICAL ∨ c.dtype = .BOOLEAN <;>
            simp [hn, hcb]
    · rw [h1] at hc1
      rw [h2] at hc2
      have e1 : c1 = Cell.markdown "# Univariate Analysis"
          :: d.cols.flatMap (uniColCells 1) := (Except.ok.inj hc1).symm
      have e2 : c2 = Cell.markdown "# Univariate Analysis"
          :: ([Cell.code [.defn "default_descriptive_statistics",
                          .defn "default_quantile_statistics"],
               Cell.code [.defn "top_most_frequent", .defn "bar_plot",
                          .defn "numeric_statistics", .defn "histogram"],
               Cell.code [.defn "format_number", .defn "dict_to_html",
                          .defn "add_html_heading", .defn "subcells_html"]]
            ++ d.cols.flatMap (uniColCells 2)) := (Except.ok.inj hc2).symm
      subst e1
      subst e2
      constructor
      · show callsOf ([Cell.markdown "# Univariate Analysis"]
            ++ ([Cell.code [.defn "default_descriptive_statistics",
                            .defn "default_quantile_statistics"],
                 Cell.code [.defn "top_most_frequent", .defn "bar_plot",
                            .defn "numeric_statistics", .defn "histogram"],
                 Cell.code [.defn "format_number", .defn "dict_to_html",
                            .defn "add_html_heading", .defn "subcells_html"]]
              ++ d.cols.flatMap (uniColCells 2)))
          = (callsOf ([Cell.markdown "# Univariate Analysis"]
              ++ d.cols.flatMap (uniColCells 1))).map promoteStats
        rw [callsOf_append, callsOf_append, callsOf_append, callsOf_flatMap,
          callsOf_flatMap]
        have hmd : callsOf [Cell.markdown "# Univariate Analysis"] = [] := by
          simp [callsOf, Cell.items]
        have hdefs : callsOf [Cell.code [.defn "default_descriptive_statistics",
              .defn "default_quantile_statistics"],
            Cell.code [.defn "top_most_frequent", .defn "bar_plot",
              .defn "numeric_statistics", .defn "histogram"],
            Cell.code [.defn "format_number", .defn "dict_to_html",
              .defn "add_html_heading", .defn "subcells_html"]]
            = [] := by
          simp [callsOf, Cell.items, CodeItem.isDefn]
        rw [hmd, hdefs]
        simp only [List.nil_append]
        rw [List.map_flatMap]
        exact flatMap_congr _ _ _ (fun c _ => promote_uniColCells c)
      · show defnsOf ([Cell.markdown "# Univariate Analysis"]
            ++ ([Cell.code [.defn "default_descriptive_statistics",
                            .defn "default_quantile_statistics"],
                 Cell.code [.defn "top_most_frequent", .defn "bar_plot",
                            .defn "numeric_statistics", .defn "histogram"],
                 Cell.code [.defn "format_number", .defn "dict_to_html",
                            .defn "add_html_heading", .defn "subcells_html"]]
              ++ d.cols.flatMap (uniColCells 2))) = _
        rw [defnsOf_append, defnsOf_append, defnsOf_flatMap]
        have hnil2 : d.cols.flatMap (fun c => defnsOf (uniColCells 2 c))
            = d.cols.flatMap (fun _ => ([] : List CodeItem)) :=
          flatMap_congr _ _ _ (fun c _ => defnsOf_uniColCells 2 c)
        rw [hnil2]
        simp [defnsOf, Cell.items, CodeItem.isDefn]
  · constructor
    · intro hv
      show [Cell.markdown "## Correlation Plot",
            Cell.code
              (if st.verbosity ≤ 1 then [.callCorrelations (corrCellArgs st)]
              else
                [.defn "default_correlations", .defn "_get_columns_x_y",
                 .defn "plot_correlation", .defn "plot_correlations",
                 .callCorrelations (corrCellArgs st)])] = _
      rcases hv with hv | hv <;> rw [hv] <;> norm_num
    · intro hv
      show [Cell.markdown "## Correlation Plot",
            Cell.code
              (if st.verbosity ≤ 1 then [.callCorrelations (corrCellArgs st)]
              else
                [.defn "default_correlations", .defn "_get_columns_x_y",
                 .defn "plot_correlation", .defn "plot_correlations",
                 .callCorrelations (corrCellArgs st)])] = _
      rw [hv]
      norm_num
  · simp only [bivariateInit] at hinit
    by_cases hxy : a.columns_x.isNone ≠ a.columns_y.isNone
    · rw [if_pos hxy] at hinit
      exact absurd hinit (by simp)
    · rw [if_neg hxy] at hinit
      have hst := (Except.ok.inj hinit).symm
      subst hst
      simp only [hc, hp, hct, Option.getD_none]
      exact mkImpls_verbosity _ _ _ _ _ _ _ _ _

/-- Witness for claim C3: the verbosity-0 univariate cell is the single
aggregate call, a verbosity-1 correlation subsection emits the bare
parameterized call, and with no verbosity overrides a subsection
implementation inherits the section verbosity. -/
theorem c3_three_fidelity_levels_amended_witness :
    callsOf [Cell.markdown "# Univariate Analysis",
        Cell.code [CodeItem.callUnivariate none]]
      = [CodeItem.callUnivariate none]
    ∧ subAddCells (.corr ⟨1, some ["a"], none, none⟩)
      = [Cell.markdown "## Correlation Plot",
         Cell.code [.callCorrelations (corrCellArgs ⟨1, some ["a"], none, none⟩)]]
    ∧ SubImpl.verbosity (.corr ⟨1, none, none, none⟩) = 1 := by
  have h := c3_three_fidelity_levels_amended
  have hu := (h.1 ⟨[], true⟩ none ⟨[], true⟩ rfl).1
    [Cell.markdown "# Univariate Analysis",
     Cell.code [CodeItem.callUnivariate none]] rfl
  have hcorr := (h.2.1 ⟨1, some ["a"], none, none⟩).1 (Or.inr rfl)
  have hov := h.2.2 ⟨none, 1, none, none, none, none, none, none, none, none⟩
    ⟨1, none, none, none, none, none, some [],
     [.corr ⟨1, none, none, none⟩, .pair ⟨1, none, none, none, none⟩,
      .cont ⟨1, none, none, none, none⟩]⟩
    rfl rfl rfl (by decide)
  exact ⟨hu.1, hcorr, hov (.corr ⟨1, none, none, none⟩) (by decide)⟩

/-! ## Claim C2 -/

lemma mapE_map {α γ β : Type} (f : γ → Except Err β) (g : α → γ)
    (l : List α) : mapE f (l.map g) = mapE (fun a => f (g a)) l := by
  induction l with
  | nil => rfl
  | cons a t ih =>
    simp only [List.map_cons, mapE]
    rw [ih]

lemma mapE_congr {α β : Type} (f g : α → Except Err β) (l : List α)
    (h : ∀ a ∈ l, f a = g a) : mapE f l = mapE g l := by
  induction l with
  | nil => rfl
  | cons a t ih =>
    simp only [mapE]
    rw [h a (List.mem_cons_self a t),
      ih (fun b hb => h b (List.mem_cons_of_mem a hb))]

lemma subShow_corr_columns (df : DataFrame) (v : Nat)
    (c : Option (List String)) (xs ys : List String) :
    subShow df (.corr ⟨v, c, some xs, some ys⟩)
      = subShow df (.corr ⟨v, none, some xs, some ys⟩) := rfl

lemma subShow_pair_columns (df : DataFrame) (v : Nat)
    (c : Option (List String)) (xs ys : List String) (col : Option String) :
    subShow df (.pair ⟨v, c, some xs, some ys, col⟩)
      = subShow df (.pair ⟨v, none, some xs, some ys, col⟩) := rfl

lemma subShow_cont_columns (df : DataFrame) (v : Nat)
    (c : Option (List String)) (xs ys : List String)
    (p : Option (List (String × String))) :
    subShow df (.cont ⟨v, c, some xs, some ys, p⟩)
      = subShow df (.cont ⟨v, none, some xs, some ys, p⟩) := by
  cases p <;> rfl

lemma noPairsXY_x_some (c : Option (List String)) (xs : List String)
    (y : Option (List String)) (p : Option (List (String × String))) :
    noPairsXY c (some xs) y p = (some xs, y) := by
  cases c <;> cases p <;> rfl

lemma mapE_subShow_mkImpls_columns (df : DataFrame) (subsAll : List Subsec)
    (c : Option (List String)) (xs ys : List String)
    (p : Option (List (String × String))) (color : Option String)
    (v1 v2 v3 : Nat) :
    mapE (subShow df)
        (mkImpls subsAll c (some xs) (some ys) (some xs) (some ys) p color
          v1 v2 v3)
      = mapE (subShow df)
        (mkImpls subsAll none (some xs) (some ys) (some xs) (some ys) p color
          v1 v2 v3) := by
  unfold mkImpls
  rw [mapE_map, mapE_map]
  refine mapE_congr _ _ _ (fun s _ => ?_)
  cases s
  · exact subShow_corr_columns df v1 c xs ys
  · exact subShow_pair_columns df v2 c xs ys color
  · exact subShow_cont_columns df v3 c xs ys p

lemma mkImpls_filter_zero (subsAll : List Subsec)
    (c xnp ynp x y : Option (List String))
    (p : Option (List (String × String))) (col : Option String) :
    (mkImpls subsAll c xnp ynp x y p col 0 0 0).filter
      (fun s => 0 < s.verbosity) = [] := by
  rw [List.filter_eq_nil_iff]
  intro impl h
  rw [mkImpls_verbosity subsAll c xnp ynp x y p col 0 impl h]
  simp

lemma bivariateAddCells_zero (st : BivState) (hv : st.verbosity = 0)
    (hfilter : st.subsections.filter (fun s => 0 < s.verbosity) = []) :
    bivariateAddCells st
      = [Cell.markdown "# Bivariate analysis",
         Cell.code [.callBivariate (bivariateCellArgs st)]] := by
  unfold bivariateAddCells
  rw [hv, if_pos rfl, hfilter]
  rfl

lemma bivariateInit_all_zero (subs : Option (List Subsec))
    (c x y : Option (List String)) (p : Option (List (String × String)))
    (color : Option String) (hxy : ¬(x.isNone ≠ y.isNone)) :
    bivariateInit ⟨subs, 0, c, x, y, p, none, none, none, color⟩
      = .ok { verbosity := 0, columns := c, columns_x := x, columns_y := y,
              columns_pairs := p, color_col := color,
              subsections_0 :=
                if subs = none then none
                else some (subs.getD
                  [.CorrelationPlot, .PairPlot, .ContingencyTable]),
              subsections := mkImpls
                (subs.getD [.CorrelationPlot, .PairPlot, .ContingencyTable])
                c (noPairsXY c x y p).1 (noPairsXY c x y p).2 x y p color
                0 0 0 } := by
  have hfilter :
      ((subs.getD [.CorrelationPlot, .PairPlot, .ContingencyTable]).filter
        (fun s => (match s with
          | Subsec.CorrelationPlot => (0:Nat)
          | Subsec.PairPlot => 0
          | Subsec.ContingencyTable => 0) = 0))
      = subs.getD [.CorrelationPlot, .PairPlot, .ContingencyTable] :=
    List.filter_eq_self.mpr (fun s _ => by cases s <;> rfl)
  show (if x.isNone ≠ y.isNone then (.error .valueError : Except Err BivState)
    else .ok
      { verbosity := 0, columns := c, columns_x := x, columns_y := y,
        columns_pairs := p, color_col := color,
        subsections_0 :=
          if ((subs.getD
                [.CorrelationPlot, .PairPlot, .ContingencyTable]).filter
              (fun s => (match s with
                | Subsec.CorrelationPlot => (0:Nat)
                | Subsec.PairPlot => 0
                | Subsec.ContingencyTable => 0) = 0)).length
              = (subs.getD
                [.CorrelationPlot, .PairPlot, .ContingencyTable]).length
            ∧ subs = none
          then none
          else some ((subs.getD
              [.CorrelationPlot, .PairPlot, .ContingencyTable]).filter
            (fun s => (match s with
              | Subsec.CorrelationPlot => (0:Nat)
              | Subsec.PairPlot => 0
              | Subsec.ContingencyTable => 0) = 0)),
        subsections := mkImpls
          (subs.getD [.CorrelationPlot, .PairPlot, .ContingencyTable])
          c (noPairsXY c x y p).1 (noPairsXY c x y p).2 x y p color
          0 0 0 }) = _
  rw [if_neg hxy, hfilter]
  rcases subs with _ | l <;> simp

/-- Claim C2: for a `BivariateAnalysis` section constructed at verbosity 0
with no subsection verbosity overrides, `add_cells` emits exactly the
section header and a single code cell calling the aggregate static
`bivariate_analysis` with the stored parameter state, and executing that
call performs, for every dataframe, the same analysis that `show(df)`
performs live; similarly a `UnivariateAnalysis` section at verbosity 0
emits a single `univariate_analysis` call carrying the stored `columns`,
and that call performs the same analysis as `show(df)`. -/
theorem c2_verbosity0_cell_refines_show :
    (∀ (a : BivArgs) (st : BivState),
      a.verbosity = 0 →
      a.verbosity_correlations = none →
      a.verbosity_pairplot = none →
      a.verbosity_contingency_table = none →
      bivariateInit a = .ok st →
      bivariateAddCells st
        = [Cell.markdown "# Bivariate analysis",
           Cell.code [.callBivariate (bivariateCellArgs st)]]
      ∧ ∀ df : DataFrame,
          bivariate_analysis df (bivariateCellArgs st) = bivariateShow st df)
    ∧ (∀ (ust : UniState) (cells : List Cell),
        ust.verbosity = 0 →
        univariateAddCells ust = .ok cells →
        callsOf cells = [.callUnivariate ust.columns]
        ∧ ∀ df : DataFrame,
            univariate_analysis df ust.columns = univariateShow ust df) := by
  constructor
  · rintro ⟨subs, v, c, x, y, p, vc, vp, vct, col⟩ st hv hc hp hct hinit
    simp only at hv hc hp hct
    subst hv
    subst hc
    subst hp
    subst hct
    rcases x with _ | xs <;> rcases y with _ | ys
    · rw [bivariateInit_all_zero subs c none none p col (by simp)] at hinit
      have hst := Except.ok.inj hinit
      subst hst
      constructor
      · exact bivariateAddCells_zero _ rfl
          (mkImpls_filter_zero _ _ _ _ _ _ _ _)
      · intro df
        have hre := bivariateInit_all_zero
          (if subs = none then none
            else some (subs.getD
              [.CorrelationPlot, .PairPlot, .ContingencyTable]))
          c none none p col (by simp)
        show (do
          let st2 ← bivariateInit
            { subsections :=
                if subs = none then none
                else some (subs.getD
                  [.CorrelationPlot, .PairPlot, .ContingencyTable])
              verbosity := 0
              columns := c
              columns_x := none
              columns_y := none
              columns_pairs := p
              verbosity_correlations := none
              verbosity_pairplot := none
              verbosity_contingency_table := none
              color_col := col }
          mapE (subShow df) st2.subsections) = _
        rw [hre]
        show mapE (subShow df)
            (mkImpls
              ((if subs = none then none
                else some (subs.getD
                  [.CorrelationPlot, .PairPlot, .ContingencyTable])).getD
                [.CorrelationPlot, .PairPlot, .ContingencyTable])
              c (noPairsXY c none none p).1 (noPairsXY c none none p).2
              none none p col 0 0 0) = _
        rcases subs with _ | l <;> rfl
    · simp [bivariateInit] at hinit
    · simp [bivariateInit] at hinit
    · rw [bivariateInit_all_zero subs c (some xs) (some ys) p col
        (by simp)] at hinit
      have hst := Except.ok.inj hinit
      subst hst
      constructor
      · exact bivariateAddCells_zero _ rfl
          (mkImpls_filter_zero _ _ _ _ _ _ _ _)
      · intro df
        have hre := bivariateInit_all_zero
          (if subs = none then none
            else some (subs.getD
              [.CorrelationPlot, .PairPlot, .ContingencyTable]))
          none (some xs) (some ys) p col (by simp)
        show (do
          let st2 ← bivariateInit
            { subsections :=
                if subs = none then none
                else some (subs.getD
                  [.CorrelationPlot, .PairPlot, .ContingencyTable])
              verbosity := 0
              columns := none
              columns_x := some xs
              columns_y := some ys
              columns_pairs := p
              verbosity_correlations := none
              verbosity_pairplot := none
              verbosity_contingency_table := none
              color_col := col }
          mapE (subShow df) st2.subsections) = _
        rw [hre]
        show mapE (subShow df)
            (mkImpls
              ((if subs = none then none
                else some (subs.getD
                  [.CorrelationPlot, .PairPlot, .ContingencyTable])).getD
                [.CorrelationPlot, .PairPlot, .ContingencyTable])
              none (noPairsXY none (some xs) (some ys) p).1
              (noPairsXY none (some xs) (some ys) p).2
              (some xs) (some ys) p col 0 0 0) = _
        rw [noPairsXY_x_some, noPairsXY_x_some]
        rcases subs with _ | l
        · exact (mapE_subShow_mkImpls_columns df
            [.CorrelationPlot, .PairPlot, .ContingencyTable]
            c xs ys p col 0 0 0).symm
        · exact (mapE_subShow_mkImpls_columns df l c xs ys p col 0 0 0).symm
  · rintro ⟨udf, uv, ucols⟩ cells hv hcells
    simp only at hv
    subst hv
    unfold univariateAddCells at hcells
    cases hsel : selectCols udf ucols with
    | error e =>
      rw [hsel] at hcells
      simp [Bind.bind, Except.bind] at hcells
    | ok d =>
      rw [hsel] at hcells
      simp only [Bind.bind, Except.bind] at hcells
      have hcells2 : cells
          = [Cell.markdown "# Univariate Analysis",
             Cell.code [.callUnivariate ucols]] := by
        have := Except.ok.inj hcells
        simp at this
        exact this.symm
      subst hcells2
      constructor
      · simp [callsOf, Cell.items, CodeItem.isDefn]
      · intro df
        rfl

/-- Witness for claim C2 at a concrete section: verbosity 0,
`columns_x`/`columns_y` specified, plus a `color_col`, over a concrete
two-column dataframe. -/
theorem c2_verbosity0_cell_refines_show_witness :
    (bivariateAddCells
        ⟨0, none, some ["n"], some ["s"], none, some "s", none,
         [.corr ⟨0, none, some ["n"], some ["s"]⟩,
          .pair ⟨0, none, some ["n"], some ["s"], some "s"⟩,
          .cont ⟨0, none, some ["n"], some ["s"], none⟩]⟩
      = [Cell.markdown "# Bivariate analysis",
         Cell.code [.callBivariate (bivariateCellArgs
           ⟨0, none, some ["n"], some ["s"], none, some "s", none,
            [.corr ⟨0, none, some ["n"], some ["s"]⟩,
             .pair ⟨0, none, some ["n"], some ["s"], some "s"⟩,
             .cont ⟨0, none, some ["n"], some ["s"], none⟩]⟩)]])
    ∧ bivariate_analysis
        ⟨[⟨"n", true, false, false, .NUMERIC, [some "1"]⟩,
          ⟨"s", false, true, false, .CATEGORICAL, [some "u"]⟩], true⟩
        (bivariateCellArgs
          ⟨0, none, some ["n"], some ["s"], none, some "s", none,
           [.corr ⟨0, none, some ["n"], some ["s"]⟩,
            .pair ⟨0, none, some ["n"], some ["s"], some "s"⟩,
            .cont ⟨0, none, some ["n"], some ["s"], none⟩]⟩)
      = bivariateShow
          ⟨0, none, some ["n"], some ["s"], none, some "s", none,
           [.corr ⟨0, none, some ["n"], some ["s"]⟩,
            .pair ⟨0, none, some ["n"], some ["s"], some "s"⟩,
            .cont ⟨0, none, some ["n"], some ["s"], none⟩]⟩
          ⟨[⟨"n", true, false, false, .NUMERIC, [some "1"]⟩,
            ⟨"s", false, true, false, .CATEGORICAL, [some "u"]⟩], true⟩
    ∧ callsOf [Cell.markdown "# Univariate Analysis",
        Cell.code [.callUnivariate (some ["n"])]]
      = [CodeItem.callUnivariate (some ["n"])] := by
  have h := (c2_verbosity0_cell_refines_show.1
    ⟨none, 0, none, some ["n"], some ["s"], none, none, none, none, some "s"⟩
    ⟨0, none, some ["n"], some ["s"], none, some "s", none,
     [.corr ⟨0, none, some ["n"], some ["s"]⟩,
      .pair ⟨0, none, some ["n"], some ["s"], some "s"⟩,
      .cont ⟨0, none, some ["n"], some ["s"], none⟩]⟩
    rfl rfl rfl rfl (by decide))
  have hu := c2_verbosity0_cell_refines_show.2
    ⟨⟨[⟨"n", true, false, false, .NUMERIC, [some "1"]⟩], true⟩, 0,
     some ["n"]⟩
    [Cell.markdown "# Univariate Analysis",
     Cell.code [.callUnivariate (some ["n"])]]
    rfl (by decide)
  exact ⟨h.1, h.2 _, hu.1⟩

end Edvart
